import Mathlib

/-!
Verification development for the ATS matching engine
(`backend/app/services/matching_engine.py` and the ranking block of
`backend/app/api/matching_routes.py`).

Modelling conventions:
* Python strings are modelled as `List Char` (`Str`); all string
  operations (`lower`, `strip`, `in`, `split`, `replace`, the regular
  expressions used by the engine) are implemented structurally on
  `List Char` so that the kernel can evaluate them on concrete inputs.
  `lower`/`strip` use the ASCII case table and the ASCII whitespace
  class, matching the behaviour of CPython on the ASCII data the engine
  manipulates.
* Python floats are modelled as `ℚ`.  `round(x, 2)` is modelled by
  `round2`, rounding half away from the even-tie behaviour of CPython
  only at exact half-cent ties, which none of the concrete inputs used
  below hit.
* Python `set`s are modelled as insertion-ordered duplicate-free lists;
  the engine only ever observes sets through membership tests, counts
  and unions, all of which are independent of iteration order.
* `datetime.now().year` is the `currentYear` field of `Engine`.
* The optional spaCy similarity check of `_fuzzy_skill_match`
  (`doc1.similarity(doc2) > 0.85`) is the pluggable `nlp` field of
  `Engine`: `none` models the `self.nlp = None` fallback, `some f`
  models a loaded model whose thresholded similarity is `f`.
* Python's stable `list.sort` / `sorted` are modelled by
  `List.insertionSort`, which is stable and sorts with respect to the
  same (total, transitive) comparator, hence is extensionally the sort
  CPython computes.
-/

set_option allowUnsafeReducibility true

/- The rational operations of the library are shipped `irreducible`,
which blocks `decide` on concrete scores; the kernel itself checks the
unfolded terms either way, so restoring the default reducibility only
lets elaboration evaluate them. -/
attribute [semireducible] Rat.add Rat.mul Rat.inv Rat.sub Rat.div Rat.neg
  Rat.ofScientific

namespace ATS

/-! Basic Python-style string primitives over `List Char`. -/

abbrev Str := List Char

/-- ASCII word character, the `\w` class of the `re` module on the
engine's ASCII data: alphanumeric or underscore. -/
def isWordChar (c : Char) : Bool := c.isAlphanum || c == '_'

/-- Python `str.lower()` (ASCII case table). -/
def pyLower (s : Str) : Str := s.map Char.toLower

/-- Python `str.strip()`: remove leading and trailing whitespace. -/
def pyStrip (s : Str) : Str :=
  ((s.dropWhile Char.isWhitespace).reverse.dropWhile Char.isWhitespace).reverse

/-- Python `needle in haystack` for strings: substring containment. -/
def pyIn (needle : Str) : Str → Bool
  | [] => needle.isEmpty
  | c :: rest => needle.isPrefixOf (c :: rest) || pyIn needle rest

/-- Python `str.split()` with no argument: split on whitespace runs,
dropping empty fields. -/
def pyWords (s : Str) : List Str :=
  (s.splitOnP Char.isWhitespace).filter (· ≠ [])

/-- Fuel-driven worker for `replaceAll`; with `fuel = s.length` it
scans the whole string (each step consumes at least one character). -/
def replaceAllFuel (pat rep : Str) : ℕ → Str → Str
  | 0, s => s
  | _ + 1, [] => []
  | fuel + 1, c :: rest =>
    if pat ≠ [] ∧ pat.isPrefixOf (c :: rest) then
      rep ++ replaceAllFuel pat rep fuel ((c :: rest).drop pat.length)
    else
      c :: replaceAllFuel pat rep fuel rest

/-- Python `str.replace(pat, rep)` for a non-empty `pat`: replace every
non-overlapping occurrence, scanning left to right. -/
def replaceAll (pat rep s : Str) : Str := replaceAllFuel pat rep s.length s

/-- Python `set(xs)` as an insertion-ordered duplicate-free list. -/
def pySetAdd (s : List Str) (x : Str) : List Str :=
  if s.contains x then s else s ++ [x]

/-- Python `set.update(xs)` / union, keeping first-insertion order. -/
def pySetUnion (s : List Str) (xs : List Str) : List Str :=
  xs.foldl pySetAdd s

/-- Python `set(xs)` built from a list. -/
def pySet (xs : List Str) : List Str := pySetUnion [] xs

/-- Python `dict.get(k, d)` on a string-keyed map. -/
def dictGet (m : List (Str × ℚ)) (k : Str) (d : ℚ) : ℚ :=
  match m.lookup k with
  | some v => v
  | none => d

/-- Python `round(x, 2)`. -/
def round2 (q : ℚ) : ℚ := (round (q * 100) : ℚ) / 100

/-- Python `max` on two rationals. -/
def maxQ (a b : ℚ) : ℚ := if a ≤ b then b else a

/-- Python `min` on two rationals. -/
def minQ (a b : ℚ) : ℚ := if a ≤ b then a else b

theorem maxQ_eq_max (a b : ℚ) : maxQ a b = max a b := by
  simp [maxQ, max_def]

theorem minQ_eq_min (a b : ℚ) : minQ a b = min a b := by
  simp [minQ, min_def]

/-! Skill normalisation and matching
(`_normalize_skill`, `_enhanced_skill_synonym_match`,
`_fuzzy_skill_match`, `_enhanced_candidate_has_skill`). -/

/-- Characters kept by `re.sub(r'[^\w\s+#.]', '', skill)`. -/
def normKeep (c : Char) : Bool :=
  isWordChar c || c.isWhitespace || c == '+' || c == '#' || c == '.'

/-- Trailing suffix words removed by
`re.sub(r'\s+(framework|js|developer|development)$', '', skill)`. -/
def normSuffixes : List Str :=
  ["framework".data, "js".data, "developer".data, "development".data]

/-- Removal of one trailing `\s+(framework|js|developer|development)`
group: the suffix word together with the whole preceding whitespace run
is deleted.  At most one of the four alternatives can be a suffix of the
string, so trying them in order is the regex semantics. -/
def stripNormSuffix (s : Str) : Str :=
  match normSuffixes.find? (fun t => t.isSuffixOf s) with
  | some t =>
    let rest := s.take (s.length - t.length)
    if rest.reverse.head?.elim false Char.isWhitespace then
      (rest.reverse.dropWhile Char.isWhitespace).reverse
    else s
  | none => s

/-- `MatchingEngine._normalize_skill`: lowercase and strip, drop every
character outside `[\w\s+#.]`, then remove one trailing
whitespace-separated suffix among framework/js/developer/development. -/
def _normalize_skill (skill : Str) : Str :=
  stripNormSuffix ((pyStrip (pyLower skill)).filter normKeep)

/-- Synonym table of `_enhanced_skill_synonym_match`. -/
def enhanced_synonyms : List (Str × List Str) :=
  [("java".data, ["java".data, "core java".data, "java se".data, "java ee".data, "j2ee".data, "openjdk".data]),
   ("python".data, ["python".data, "python3".data, "py".data, "cpython".data]),
   ("javascript".data, ["javascript".data, "js".data, "ecmascript".data, "es6".data, "es2015".data]),
   ("react".data, ["react".data, "reactjs".data, "react.js".data]),
   ("angular".data, ["angular".data, "angularjs".data, "angular.js".data, "angular2+".data]),
   ("spring".data, ["spring".data, "spring boot".data, "spring framework".data]),
   ("nodejs".data, ["node.js".data, "nodejs".data, "node".data]),
   ("dotnet".data, [".net".data, "dotnet".data, "dot net".data, ".net framework".data, ".net core".data]),
   ("csharp".data, ["c#".data, "csharp".data, "c sharp".data]),
   ("mysql".data, ["mysql".data, "my sql".data, "database".data]),
   ("postgresql".data, ["postgresql".data, "postgres".data, "psql".data]),
   ("mongodb".data, ["mongodb".data, "mongo".data]),
   ("html".data, ["html".data, "html5".data]),
   ("css".data, ["css".data, "css3".data]),
   ("aws".data, ["aws".data, "amazon web services".data]),
   ("azure".data, ["azure".data, "microsoft azure".data]),
   ("docker".data, ["docker".data, "containerization".data]),
   ("kubernetes".data, ["kubernetes".data, "k8s".data]),
   ("programming".data, ["programming".data, "coding".data, "development".data, "software development".data]),
   ("software development".data, ["software development".data, "development".data, "programming".data, "coding".data])]

/-- `MatchingEngine._enhanced_skill_synonym_match`: both skills belong
to some entry of the synonym table. -/
def _enhanced_skill_synonym_match (skill1 skill2 : Str) : Bool :=
  enhanced_synonyms.any (fun g => g.2.contains skill1 && g.2.contains skill2)

/-- The engine with its process-wide configuration: the static role
catalog, the optional thresholded spaCy similarity, and the current
calendar year (`datetime.now().year`). -/
structure RolePattern where
  role : Str
  key_skills : List Str
  patterns : List Str
  weight : ℚ
deriving DecidableEq

structure Engine where
  catalog : List RolePattern
  nlp : Option (Str → Str → Bool)
  currentYear : ℕ

/-- `MatchingEngine._fuzzy_skill_match`: length guard, character-set
overlap ratio above 0.8, then the optional spaCy similarity check. -/
def _fuzzy_skill_match (eng : Engine) (skill1 skill2 : Str) : Bool :=
  if skill1.length < 3 || skill2.length < 3 then false
  else
    let overlap := (skill1.eraseDups.filter (fun c => skill2.contains c)).length
    let min_length := min skill1.length skill2.length
    if (overlap : ℚ) / (min_length : ℚ) > 8/10 then true
    else
      match eng.nlp with
      | some sim => sim skill1 skill2
      | none => false

/-- `MatchingEngine._enhanced_candidate_has_skill`: some resume skill
matches the target by normalised equality, synonym, substring in either
direction, or the fuzzy tier. -/
def _enhanced_candidate_has_skill (eng : Engine) (target_skill : Str)
    (resume_skills : List Str) : Bool :=
  let target_normalized := _normalize_skill target_skill
  resume_skills.any (fun resume_skill =>
    let resume_normalized := _normalize_skill resume_skill
    target_normalized == resume_normalized
      || _enhanced_skill_synonym_match target_normalized resume_normalized
      || pyIn target_normalized resume_normalized
      || pyIn resume_normalized target_normalized
      || _fuzzy_skill_match eng target_normalized resume_normalized)

/-- Synonym table of `_enhanced_technology_match`. -/
def tech_synonyms : List (Str × List Str) :=
  [("java".data, ["java".data, "core java".data, "spring boot".data, "spring framework".data, "hibernate".data, "jsp".data, "j2ee".data, "spring".data]),
   ("python".data, ["python".data, "django".data, "flask".data, "fastapi".data, "python3".data, "py".data]),
   ("javascript".data, ["javascript".data, "js".data, "node.js".data, "nodejs".data, "react".data, "angular".data, "vue".data, "jquery".data]),
   ("spring".data, ["spring".data, "spring boot".data, "spring framework".data, "springframework".data]),
   ("react".data, ["react".data, "reactjs".data, "react.js".data]),
   ("angular".data, ["angular".data, "angularjs".data, "angular.js".data]),
   ("dotnet".data, [".net".data, "c#".data, "asp.net".data, "dotnet".data, ".net core".data]),
   ("mysql".data, ["mysql".data, "my sql".data, "Database".data]),
   ("postgresql".data, ["postgresql".data, "postgres".data, "psql".data]),
   ("mongodb".data, ["mongodb".data, "mongo".data, "mongo db".data]),
   ("aws".data, ["aws".data, "amazon web services".data]),
   ("docker".data, ["docker".data, "containerization".data]),
   ("git".data, ["git".data, "github".data, "gitlab".data, "version control".data]),
   ("programming".data, ["programming".data, "coding".data, "development".data, "software development".data]),
   ("software development".data, ["software development".data, "development".data, "programming".data, "coding".data])]

/-- `MatchingEngine._enhanced_technology_match`: direct equality,
synonym group, or substring containment in either direction. -/
def _enhanced_technology_match (required_tech resume_tech : Str) : Bool :=
  if required_tech == resume_tech then true
  else if tech_synonyms.any (fun g => g.2.contains required_tech && g.2.contains resume_tech) then true
  else pyIn required_tech resume_tech || pyIn resume_tech required_tech

/-! Core data records.  `detailed_analysis` is a diagnostic blob in the
source; only the parts the scoring pipeline reads back or that carry
the rejection outcome are modelled as fields. -/

structure Engagement where
  role : Str
  company : Str
  duration : Str
  technologies_used : List Str
  description : Str
  responsibilities : Str
deriving DecidableEq

structure ResumeData where
  skills : List Str
  structured_skills : List Str
  total_experience : ℚ
  experience_timeline : List Engagement

/-- Structured job-description record.  `experience_required` is
modelled as the numeric field of the JD dict (the engine's
`isinstance(exp_req, (int, float))` branch); the regex fallback that
re-parses free text applies only when the field is absent and is outside
the scope of the claims. -/
structure JdData where
  job_title : Str
  description : Str
  requirements : List Str
  experience_required : ℚ
  primary_skills : List Str
  secondary_skills : List Str

structure JobPriority where
  role : Str
  priority : ℕ
  key_skills : List Str
  weight : ℚ
deriving DecidableEq

abbrev WeightMap := List (Str × ℚ)

/-- Priority multiplier of `_calculate_complete_skills_score`. -/
def priorityMultiplier (priority_level : ℕ) : ℚ :=
  if priority_level = 1 then 1
  else if priority_level = 2 then 85/100
  else 70/100

/-- The de-duplicated required-skill list of
`_calculate_complete_skills_score`: every key skill of every priority,
lowercased and stripped, first occurrence keeping its priority level. -/
def requiredSkillsOf (job_priorities : List JobPriority) : List (Str × ℕ) :=
  (job_priorities.foldl
    (fun acc p => acc ++ p.key_skills.map (fun sk => (pyStrip (pyLower sk), p.priority))) []).foldl
    (fun acc sk => if acc.any (fun x => x.1 == sk.1) then acc else acc ++ [sk]) []

/-- Per-skill final weight: `(skill_weights.get(skill, 50)/100) *
priority_multiplier`. -/
def finalWeight (skills_weightage : WeightMap) (sk : Str × ℕ) : ℚ :=
  dictGet skills_weightage sk.1 50 / 100 * priorityMultiplier sk.2

/-- Coverage bonus tiers of `_calculate_complete_skills_score`. -/
def coverageBonus (coverage_ratio : ℚ) : ℚ :=
  if coverage_ratio ≥ 95/100 then 15
  else if coverage_ratio ≥ 90/100 then 10
  else if coverage_ratio ≥ 80/100 then 5
  else 0

/-- Priority-1 bonus tiers of `_calculate_complete_skills_score`. -/
def priority1Bonus (priority1_coverage : ℚ) : ℚ :=
  if priority1_coverage = 1 then 10
  else if priority1_coverage ≥ 8/10 then 5
  else 0

/-- The `matched_skills` list: required skills the resume matches. -/
def matchedSkillsOf (eng : Engine) (resume_skills : List Str)
    (job_priorities : List JobPriority) : List (Str × ℕ) :=
  (requiredSkillsOf job_priorities).filter
    (fun sk => _enhanced_candidate_has_skill eng sk.1 resume_skills)

/-- The `base_skills_score`: matched weight over possible weight times
100 (0 when the possible weight is 0). -/
def skillsBaseScore (eng : Engine) (resume_skills : List Str)
    (job_priorities : List JobPriority) (skills_weightage : WeightMap) : ℚ :=
  let total_weighted_score :=
    ((matchedSkillsOf eng resume_skills job_priorities).map (finalWeight skills_weightage)).sum
  let total_possible_weight :=
    ((requiredSkillsOf job_priorities).map (finalWeight skills_weightage)).sum
  if total_possible_weight = 0 then 0
  else total_weighted_score / total_possible_weight * 100

/-- The `coverage_ratio`: matched count over required count. -/
def coverageRatioOf (eng : Engine) (resume_skills : List Str)
    (job_priorities : List JobPriority) : ℚ :=
  ((matchedSkillsOf eng resume_skills job_priorities).length : ℚ)
    / ((requiredSkillsOf job_priorities).length : ℚ)

/-- The `priority_bonus`: the priority-1 bonus over the rank-1 required
skills (0 when there are none). -/
def priorityBonusOf (eng : Engine) (resume_skills : List Str)
    (job_priorities : List JobPriority) : ℚ :=
  let priority1_skills := (requiredSkillsOf job_priorities).filter (fun sk => sk.2 = 1)
  let priority1_matched :=
    (matchedSkillsOf eng resume_skills job_priorities).filter (fun sk => sk.2 = 1)
  if priority1_skills.length > 0 then
    priority1Bonus ((priority1_matched.length : ℚ) / (priority1_skills.length : ℚ))
  else 0

/-- `MatchingEngine._calculate_complete_skills_score` (the function
takes the resume dict and reads only its `skills` list, passed here
directly): weighted coverage of all required skills plus coverage and
priority-1 bonuses, capped at 100.  The locals of the source
(`matched_skills`, `base_skills_score`, `coverage_ratio`,
`priority_bonus`) are the named helpers above. -/
def _calculate_complete_skills_score (eng : Engine) (resume_skills : List Str)
    (job_priorities : List JobPriority) (skills_weightage : WeightMap) : ℚ :=
  if resume_skills = [] then 0
  else
    if (requiredSkillsOf job_priorities).length = 0 then 0
    else
      minQ 100 (skillsBaseScore eng resume_skills job_priorities skills_weightage
        + coverageBonus (coverageRatioOf eng resume_skills job_priorities)
        + priorityBonusOf eng resume_skills job_priorities)

/-! Duration parsing (`_extract_years_from_duration`).  Each regular
expression of the source is implemented as a matcher at a fixed start
position (the patterns are backtracking-free up to the one-step
`\d{1,2}` retreat, which is inlined) together with a leftmost-position
scanner reproducing `re.search`. -/

def digitVal (c : Char) : ℕ := c.toNat - 48

def natOfDigits (ds : Str) : ℕ := ds.foldl (fun n c => n * 10 + digitVal c) 0

/-- Dash class `[-–]` of the duration patterns. -/
def isDash (c : Char) : Bool := c == '-' || c == '–'

/-- Match exactly `n` digit characters, returning their value. -/
def takeDigitsN (acc : ℕ) : ℕ → Str → Option (ℕ × Str)
  | 0, s => some (acc, s)
  | _ + 1, [] => none
  | n + 1, c :: rest =>
    if c.isDigit then takeDigitsN (acc * 10 + digitVal c) n rest else none

/-- Match `\s*[-–]\s*lit` at the head of the string. -/
def dashThen (lit : Str) (r : Str) : Bool :=
  match r.dropWhile Char.isWhitespace with
  | c :: r2 => isDash c && lit.isPrefixOf (r2.dropWhile Char.isWhitespace)
  | [] => false

/-- Match `\s*[-–]\s*(\d{4})` at the head of the string. -/
def dashThenD4 (r : Str) : Option ℕ :=
  match r.dropWhile Char.isWhitespace with
  | c :: r2 =>
    if isDash c then (takeDigitsN 0 4 (r2.dropWhile Char.isWhitespace)).map (·.1)
    else none
  | [] => none

/-- Match `(\d{1,2})/` (greedy with the one-step backtrack of the
quantifier), returning the remainder after the slash. -/
def d12Slash : Str → Option Str
  | c1 :: c2 :: rest =>
    if c1.isDigit then
      if c2.isDigit then
        match rest with
        | '/' :: r => some r
        | _ => none
      else if c2 == '/' then some rest
      else none
    else none
  | _ => none

/-- Match `(\d{1,2})/(\d{4})`, returning the 4-digit group. -/
def d12SlashD4 (s : Str) : Option (ℕ × Str) :=
  (d12Slash s).bind (takeDigitsN 0 4 ·)

/-- Match `\w+\s+(\d{4})`, returning the 4-digit group (the greedy
`\w+` run must end at the mandatory whitespace). -/
def wordWsD4 (s : Str) : Option (ℕ × Str) :=
  if s.takeWhile isWordChar = [] then none
  else
    let r1 := s.dropWhile isWordChar
    if r1.takeWhile Char.isWhitespace = [] then none
    else takeDigitsN 0 4 (r1.dropWhile Char.isWhitespace)

/-- Pattern `(\w+)\s+(\d{4})\s*[-–]\s*present` at one position. -/
def p1At (s : Str) : Option ℕ :=
  (wordWsD4 s).bind (fun x =>
    if dashThen "present".data x.2 then some x.1 else none)

/-- Pattern `(\d{4})\s*[-–]\s*present` at one position.  It has a
single capture group, so the `len(match.groups()) == 2` test of the
source always fails on it and its match never produces a value; it is
kept only to mirror the loop. -/
def p2At (s : Str) : Option Unit :=
  (takeDigitsN 0 4 s).bind (fun x =>
    if dashThen "present".data x.2 then some () else none)

/-- Pattern `(\d{1,2})/(\d{4})\s*[-–]\s*present` at one position,
returning group 2 (the start year). -/
def p3At (s : Str) : Option ℕ :=
  (d12SlashD4 s).bind (fun x =>
    if dashThen "present".data x.2 then some x.1 else none)

/-- Pattern `(\d{4})\s*[-–]\s*(\d{4})` at one position. -/
def r1At (s : Str) : Option (ℕ × ℕ) :=
  (takeDigitsN 0 4 s).bind (fun x => (dashThenD4 x.2).map (fun b => (x.1, b)))

/-- Pattern `\w+\s+(\d{4})\s*[-–]\s*\w+\s+(\d{4})` at one position. -/
def r2At (s : Str) : Option (ℕ × ℕ) :=
  (wordWsD4 s).bind (fun x =>
    match x.2.dropWhile Char.isWhitespace with
    | c :: r2 =>
      if isDash c then
        (wordWsD4 (r2.dropWhile Char.isWhitespace)).map (fun y => (x.1, y.1))
      else none
    | [] => none)

/-- Pattern `(\d{1,2})/(\d{4})\s*[-–]\s*(\d{1,2})/(\d{4})` at one
position, returning groups 2 and 4 (the two years). -/
def r3At (s : Str) : Option (ℕ × ℕ) :=
  (d12SlashD4 s).bind (fun x =>
    match x.2.dropWhile Char.isWhitespace with
    | c :: r2 =>
      if isDash c then
        (d12SlashD4 (r2.dropWhile Char.isWhitespace)).map (fun y => (x.1, y.1))
      else none
    | [] => none)

/-- Pattern `(\d+(?:\.\d+)?)\s*years?` at one position, returning the
parsed decimal group. -/
def yAt (s : Str) : Option ℚ :=
  let ds := s.takeWhile Char.isDigit
  if ds = [] then none
  else
    let r1 := s.dropWhile Char.isDigit
    let intPart : ℚ := (natOfDigits ds : ℚ)
    let qr : ℚ × Str :=
      match r1 with
      | '.' :: r =>
        let fs := r.takeWhile Char.isDigit
        if fs = [] then (intPart, r1)
        else (intPart + (natOfDigits fs : ℚ) / ((10 : ℚ) ^ fs.length), r.dropWhile Char.isDigit)
      | _ => (intPart, r1)
    if "year".data.isPrefixOf (qr.2.dropWhile Char.isWhitespace) then some qr.1 else none

/-- Pattern `(\d+)\s*months?` at one position. -/
def mAt (s : Str) : Option ℕ :=
  let ds := s.takeWhile Char.isDigit
  if ds = [] then none
  else
    if "month".data.isPrefixOf ((s.dropWhile Char.isDigit).dropWhile Char.isWhitespace) then
      some (natOfDigits ds)
    else none

/-- Leftmost-match driver reproducing `re.search`: try the matcher at
every position, left to right. -/
def scanOpt {α : Type} (pAt : Str → Option α) : Str → Option α
  | [] => pAt []
  | c :: rest =>
    match pAt (c :: rest) with
    | some v => some v
    | none => scanOpt pAt rest

/-- `MatchingEngine._extract_years_from_duration`: empty duration maps
to 0.5; then, on the lowercased stripped string, the three `present`
patterns (the second one is skipped by the `len(match.groups()) == 2`
check), the three year-range patterns, explicit `years`, explicit
`months`, and the default 1.0. -/
def _extract_years_from_duration (currentYear : ℕ) (duration_str : Str) : ℚ :=
  if duration_str = [] then 1/2
  else
    let s := pyStrip (pyLower duration_str)
    match scanOpt p1At s with
    | some start_year => maxQ (1/10) ((currentYear : ℚ) - (start_year : ℚ))
    | none =>
      match scanOpt p3At s with
      | some start_year => maxQ (1/10) ((currentYear : ℚ) - (start_year : ℚ))
      | none =>
        match scanOpt r1At s with
        | some (a, b) => maxQ (1/10) ((b : ℚ) - (a : ℚ) + 1)
        | none =>
          match scanOpt r2At s with
          | some (a, b) => maxQ (1/10) ((b : ℚ) - (a : ℚ) + 1)
          | none =>
            match scanOpt r3At s with
            | some (a, b) => maxQ (1/10) ((b : ℚ) - (a : ℚ) + 1)
            | none =>
              match scanOpt yAt s with
              | some q => q
              | none =>
                match scanOpt mAt s with
                | some m => maxQ (1/10) ((m : ℚ) / 12)
                | none => 1

/-! Relevance filter (`_calculate_relevant_experience`) and the
experience scorer actually invoked by the pipeline
(`_calculate_enhanced_experience_score_v2` with its two components). -/

/-- One matching engagement as recorded by
`_calculate_relevant_experience` (the textual `matching_reasons`
diagnostics are not read back anywhere and are omitted). -/
structure MatchingJob where
  role : Str
  company : Str
  duration : Str
  years : ℚ
  relevance_score : ℚ
  matched_technologies : List Str
deriving DecidableEq

/-- Identity of an engagement as echoed in rejection output. -/
structure CandidateExp where
  role : Str
  company : Str
  duration : Str
deriving DecidableEq

structure RelevanceDetails where
  matching_jobs : List MatchingJob
  non_matching_jobs : List CandidateExp
deriving DecidableEq

/-- Generic role words ignored by the role-title relevance check. -/
def genericRoleWords : List Str :=
  ["developer".data, "engineer".data, "software".data]

/-- The `required_role_keywords` set: for every priority, the role name
lowercased with ` developer` and ` engineer` removed, split on
whitespace, accumulated as a set. -/
def requiredRoleKeywords (job_priorities : List JobPriority) : List Str :=
  job_priorities.foldl
    (fun acc p =>
      pySetUnion acc
        (pyWords (replaceAll " engineer".data [] (replaceAll " developer".data [] (pyLower p.role)))))
    []

/-- The `priority_skills` set: every key skill of every priority,
lowercased, accumulated as a set. -/
def prioritySkillsSet (job_priorities : List JobPriority) : List Str :=
  job_priorities.foldl (fun acc p => pySetUnion acc (p.key_skills.map pyLower)) []

/-- Role-keyword matches of one engagement: keywords occurring in the
lowercased role title, skipping the generic words. -/
def roleMatchCount (required_role_keywords : List Str) (exp_role : Str) : ℕ :=
  required_role_keywords.countP
    (fun kw => pyIn kw exp_role && !(genericRoleWords.contains kw))

/-- Priority skills found among the engagement technologies
(`any(skill in tech for tech in exp_techs)`). -/
def matchedTechsOf (priority_skills : List Str) (exp_techs : List Str) : List Str :=
  priority_skills.filter (fun sk => exp_techs.any (fun t => pyIn sk t))

/-- The relevance test of one engagement: its role title contains a
non-generic required-role keyword, or at least two priority skills
occur among its technologies (the `is_relevant` local of the loop). -/
def engagementRelevantB (required_role_keywords priority_skills : List Str)
    (e : Engagement) : Bool :=
  roleMatchCount required_role_keywords (pyLower e.role) > 0
    || (matchedTechsOf priority_skills (e.technologies_used.map pyLower)).length ≥ 2

/-- The loop body of `_calculate_relevant_experience` for one
engagement. -/
def relevantStep (currentYear : ℕ) (required_role_keywords priority_skills : List Str)
    (acc : ℚ × RelevanceDetails) (e : Engagement) : ℚ × RelevanceDetails :=
  let exp_role := pyLower e.role
  let exp_techs := e.technologies_used.map pyLower
  let years := _extract_years_from_duration currentYear e.duration
  let role_match_count := roleMatchCount required_role_keywords exp_role
  let matched_techs := matchedTechsOf priority_skills exp_techs
  let tech_match_count := matched_techs.length
  let is_relevant := role_match_count > 0 || tech_match_count ≥ 2
  let relevance_score : ℚ :=
    (if role_match_count > 0 then 0.5 else 0) + (if tech_match_count ≥ 2 then 0.5 else 0)
  if is_relevant ∧ relevance_score ≥ 0.5 then
    (acc.1 + years,
     ⟨acc.2.matching_jobs ++
        [⟨e.role, e.company, e.duration, years, relevance_score, matched_techs⟩],
      acc.2.non_matching_jobs⟩)
  else
    (acc.1, ⟨acc.2.matching_jobs, acc.2.non_matching_jobs ++ [⟨e.role, e.company, e.duration⟩]⟩)

/-- `MatchingEngine._calculate_relevant_experience`: sum the parsed
years of every engagement whose role title contains a non-generic
required-role keyword or whose technologies contain at least two
priority skills; return the matching and non-matching job lists. -/
def _calculate_relevant_experience (currentYear : ℕ)
    (experience_timeline : List Engagement) (job_priorities : List JobPriority) :
    ℚ × RelevanceDetails :=
  if experience_timeline.isEmpty then (0, ⟨[], []⟩)
  else
    experience_timeline.foldl
      (relevantStep currentYear (requiredRoleKeywords job_priorities)
        (prioritySkillsSet job_priorities))
      (0, ⟨[], []⟩)

/-- `MatchingEngine._calculate_experience_quality_score`: job count,
average relevance and technology diversity, weighted 0.4/0.4/0.2 and
capped at 100. -/
def _calculate_experience_quality_score (relevance_details : RelevanceDetails) : ℚ :=
  if relevance_details.matching_jobs.isEmpty then 0
  else
    let num_jobs := relevance_details.matching_jobs.length
    let avg_relevance := (relevance_details.matching_jobs.map (·.relevance_score)).sum / (num_jobs : ℚ)
    let all_matched_techs := relevance_details.matching_jobs.foldl
      (fun acc j => pySetUnion acc j.matched_technologies) []
    let tech_diversity := all_matched_techs.length
    let job_count_score := minQ 100 ((num_jobs : ℚ) * 25)
    let relevance_score := avg_relevance * 100
    let tech_score := minQ 100 ((tech_diversity : ℚ) * 15)
    minQ 100 (job_count_score * 0.4 + relevance_score * 0.4 + tech_score * 0.2)

/-- `MatchingEngine._calculate_recent_experience_bonus_v2`: best bonus
over current (`present`/`current` in the duration) or recent (current
or previous year printed in the duration) engagements, scaled by the
fraction of priority skills they cover. -/
def _calculate_recent_experience_bonus_v2 (currentYear : ℕ)
    (experience_timeline : List Engagement) (job_priorities : List JobPriority) : ℚ :=
  if experience_timeline.isEmpty then 0
  else
    let priority_skills := prioritySkillsSet job_priorities
    experience_timeline.foldl
      (fun max_bonus e =>
        let exp_duration := pyLower e.duration
        let exp_techs := e.technologies_used.map pyLower
        let is_current := pyIn "present".data exp_duration || pyIn "current".data exp_duration
        let is_recent := pyIn (Nat.repr currentYear).data exp_duration
          || pyIn (Nat.repr (currentYear - 1)).data exp_duration
        if is_current || is_recent then
          let matched_skills := priority_skills.countP (fun sk => exp_techs.any (fun t => pyIn sk t))
          if matched_skills > 0 then
            let relevance_ratio := minQ 1 ((matched_skills : ℚ) / (priority_skills.length : ℚ))
            let bonus := if is_current then 100 * relevance_ratio else 70 * relevance_ratio
            maxQ max_bonus bonus
          else max_bonus
        else max_bonus)
      0

/-- `MatchingEngine._calculate_experience_requirement_score`: the
experience-requirement band score (the `None` guards of the source
cannot fire on rational inputs). -/
def _calculate_experience_requirement_score
    (total_experience jd_experience_required : ℚ) : ℚ :=
  if jd_experience_required = 0 then
    if total_experience = 0 then 60
    else if total_experience ≥ 5 then 95
    else if total_experience ≥ 3 then 85
    else if total_experience ≥ 2 then 75
    else if total_experience ≥ 1 then 70
    else 65
  else
    if total_experience ≥ jd_experience_required * 1.5 then 100
    else if total_experience ≥ jd_experience_required then
      minQ 100 (85 + (total_experience - jd_experience_required) / (jd_experience_required * 0.5) * 15)
    else if total_experience ≥ jd_experience_required * 0.8 then
      60 + (total_experience / jd_experience_required - 0.8) * 125
    else if total_experience ≥ jd_experience_required * 0.5 then
      30 + (total_experience / jd_experience_required - 0.5) * 100
    else if total_experience > 0 then
      maxQ 10 (total_experience / jd_experience_required * 60)
    else 10

/-- `MatchingEngine._calculate_enhanced_experience_score_v2` (the
function receives the enhanced resume dict and reads only its
`experience_timeline`): requirement match, quality of relevant
experience and recency bonus weighted 0.5/0.3/0.2, clamped to
[0, 100]; candidates without relevant years score 0. -/
def _calculate_enhanced_experience_score_v2 (currentYear : ℕ) (resume_data : ResumeData)
    (job_priorities : List JobPriority) (jd_experience_required : ℚ)
    (relevant_experience_years : ℚ) (relevance_details : RelevanceDetails) : ℚ :=
  if relevant_experience_years = 0 then 0
  else
    let requirement_score :=
      _calculate_experience_requirement_score relevant_experience_years jd_experience_required
    let quality_score := _calculate_experience_quality_score relevance_details
    let recency_score :=
      _calculate_recent_experience_bonus_v2 currentYear resume_data.experience_timeline job_priorities
    let final_score := requirement_score * 0.5 + quality_score * 0.3 + recency_score * 0.2
    minQ 100 (maxQ 0 final_score)

/-! The earlier revision of the experience scorer
(`_calculate_enhanced_experience_score` with its components), kept in
the source but no longer invoked by `calculate_ats_score`. -/

/-- Role keywords scored 2 in the v1 role-title check. -/
def specificRoleWords : List Str :=
  ["python".data, "java".data, "javascript".data, "react".data, "angular".data,
   ".net".data, "php".data, "business".data, "analyst".data]

/-- Role keywords ignored by the v1 role-title check. -/
def genericRoleWordsV1 : List Str :=
  ["developer".data, "engineer".data, "software".data, "senior".data, "junior".data]

/-- Per-priority accumulation of `_calculate_relevant_experience_score`:
relevance-weighted years and the number of matched engagements. -/
def relevantYearsForPriority (currentYear : ℕ) (experience_timeline : List Engagement)
    (p : JobPriority) : ℚ × ℕ :=
  let role_keywords := pyWords (replaceAll " analyst".data []
    (replaceAll " engineer".data [] (replaceAll " developer".data [] (pyLower p.role))))
  experience_timeline.foldl
    (fun acc e =>
      let exp_role := pyLower e.role
      let exp_technologies := e.technologies_used.map (fun t => pyStrip (pyLower t))
      let years := _extract_years_from_duration currentYear e.duration
      let matched_technologies := p.key_skills.filter
        (fun sk => exp_technologies.any
          (fun t => _enhanced_technology_match (pyStrip (pyLower sk)) (pyStrip (pyLower t))))
      let role_match_score : ℕ := role_keywords.foldl
        (fun n kw =>
          if pyIn kw exp_role then
            if specificRoleWords.contains kw then n + 2
            else if !(genericRoleWordsV1.contains kw) then n + 1
            else n
          else n) 0
      let job_description := if e.description ≠ [] then e.description else e.responsibilities
      let description_matches : ℕ :=
        if job_description ≠ [] then
          p.key_skills.countP (fun sk => pyIn (pyLower sk) (pyLower job_description))
        else 0
      let tech_relevance : ℚ :=
        if p.key_skills.isEmpty then 0
        else (matched_technologies.length : ℚ) / (p.key_skills.length : ℚ)
      let role_relevance := minQ 1 ((role_match_score : ℚ) * 0.25)
      let desc_relevance := minQ 0.3 ((description_matches : ℚ) * 0.1)
      let overall_relevance := tech_relevance + role_relevance + desc_relevance
      if overall_relevance > 0.05 then
        let quality_multiplier : ℚ :=
          1 + (if pyIn "present".data (pyLower e.duration) || pyIn "current".data (pyLower e.duration)
               then 0.3 else 0)
            + (if overall_relevance > 0.8 then 0.2
               else if overall_relevance > 0.5 then 0.1 else 0)
        let weighted_years := years * minQ 2 (overall_relevance * quality_multiplier)
        (acc.1 + weighted_years, acc.2 + 1)
      else acc)
    (0, 0)

/-- Score bands of `_calculate_relevant_experience_score` for one
priority level. -/
def priorityBandScore (priority_level : ℕ) (total_relevant_years : ℚ)
    (matched_count : ℕ) : ℚ :=
  if priority_level = 1 then
    let base_score : ℚ :=
      if total_relevant_years ≥ 7 then 100
      else if total_relevant_years ≥ 5 then 90 + (total_relevant_years - 5) * 5
      else if total_relevant_years ≥ 3 then 75 + (total_relevant_years - 3) * 7.5
      else if total_relevant_years ≥ 2 then 60 + (total_relevant_years - 2) * 15
      else if total_relevant_years ≥ 1 then 40 + (total_relevant_years - 1) * 20
      else if total_relevant_years > 0 then 20 + total_relevant_years * 20
      else 5
    let base_score := if matched_count ≥ 2 then base_score + 10 else base_score
    base_score * 0.7
  else
    let base_score : ℚ :=
      if total_relevant_years ≥ 5 then 95
      else if total_relevant_years ≥ 3 then 80 + (total_relevant_years - 3) * 7.5
      else if total_relevant_years ≥ 2 then 65 + (total_relevant_years - 2) * 15
      else if total_relevant_years ≥ 1 then 45 + (total_relevant_years - 1) * 20
      else if total_relevant_years > 0 then 25 + total_relevant_years * 20
      else 3
    base_score * 0.3

/-- `MatchingEngine._calculate_relevant_experience_score`: weighted
relevant years for the top two priorities, banded, weighted 0.7/0.3,
with the multi-priority bonus, capped at 100. -/
def _calculate_relevant_experience_score (currentYear : ℕ)
    (experience_timeline : List Engagement) (job_priorities : List JobPriority) : ℚ :=
  if experience_timeline.isEmpty || job_priorities.isEmpty then 0
  else
    let top_priorities :=
      (List.insertionSort (fun a b : JobPriority => a.priority ≤ b.priority) job_priorities).take 2
    let priority_scores := top_priorities.map (fun p =>
      let acc := relevantYearsForPriority currentYear experience_timeline p
      priorityBandScore p.priority acc.1 acc.2)
    let final_score := priority_scores.sum
    let final_score :=
      match priority_scores with
      | [a, b] => if a > 5 ∧ b > 5 then final_score + minQ 15 (a * 0.1 + b * 0.2) else final_score
      | _ => final_score
    minQ 100 final_score

/-- `MatchingEngine._calculate_recent_experience_bonus` (v1): best
bonus over current or recent engagements and over all priorities,
scaled by the fraction of that priority's key skills matched. -/
def _calculate_recent_experience_bonus (currentYear : ℕ)
    (experience_timeline : List Engagement) (job_priorities : List JobPriority) : ℚ :=
  if experience_timeline.isEmpty || job_priorities.isEmpty then 0
  else
    experience_timeline.foldl
      (fun max_bonus e =>
        let exp_duration := pyLower e.duration
        let exp_technologies := e.technologies_used.map (fun t => pyStrip (pyLower t))
        let is_current := pyIn "present".data exp_duration || pyIn "current".data exp_duration
        let is_recent := pyIn (Nat.repr currentYear).data exp_duration
          || pyIn (Nat.repr (currentYear - 1)).data exp_duration
        if is_current || is_recent then
          job_priorities.foldl
            (fun max_bonus p =>
              let matched_skills := p.key_skills.countP
                (fun sk => exp_technologies.any
                  (fun t => _enhanced_technology_match (pyLower sk) (pyLower t)))
              if matched_skills > 0 then
                let relevance_ratio := (matched_skills : ℚ) / (p.key_skills.length : ℚ)
                let bonus :=
                  if is_current then
                    if p.priority = 1 then 100 * relevance_ratio else 70 * relevance_ratio
                  else
                    if p.priority = 1 then 70 * relevance_ratio else 50 * relevance_ratio
                maxQ max_bonus bonus
              else max_bonus)
            max_bonus
        else max_bonus)
      0

/-- `MatchingEngine._calculate_enhanced_experience_score` (v1, not
invoked by `calculate_ats_score`): fresh-graduate shortcuts, then
requirement match on total experience, relevant experience and recency
weighted 0.4/0.4/0.2, clamped to [0, 100]. -/
def _calculate_enhanced_experience_score (currentYear : ℕ) (resume_data : ResumeData)
    (job_priorities : List JobPriority) (jd_experience_required : ℚ) : ℚ :=
  let experience_timeline := resume_data.experience_timeline
  let total_experience := resume_data.total_experience
  if experience_timeline.isEmpty ∨ total_experience = 0 then
    if jd_experience_required = 0 then 50 else 10
  else
    let experience_requirement_score :=
      _calculate_experience_requirement_score total_experience jd_experience_required
    let relevant_experience_score :=
      _calculate_relevant_experience_score currentYear experience_timeline job_priorities
    let recent_experience_bonus :=
      _calculate_recent_experience_bonus currentYear experience_timeline job_priorities
    let final_experience_score := experience_requirement_score * 0.4
      + relevant_experience_score * 0.4 + recent_experience_bonus * 0.2
    minQ 100 (maxQ 0 final_experience_score)

/-! Experience enrichment (`_enhance_experience_data` with its two
technology extractors) and resume skill extraction. -/

/-- Role-title technology dictionary of
`_extract_technologies_from_role_title` (the `Database` key is
capitalised in the source). -/
def title_tech_patterns : List (Str × List Str) :=
  [("java".data, ["java developer".data, "java engineer".data, "j2ee".data, "spring developer".data]),
   ("python".data, ["python developer".data, "python engineer".data, "django developer".data, "flask developer".data]),
   ("javascript".data, ["javascript developer".data, "js developer".data, "frontend developer".data, "react developer".data, "angular developer".data]),
   ("dotnet".data, [".net developer".data, "c# developer".data, "asp.net developer".data]),
   ("php".data, ["php developer".data, "laravel developer".data]),
   ("nodejs".data, ["node.js developer".data, "nodejs developer".data, "backend developer".data]),
   ("react".data, ["react developer".data, "reactjs developer".data]),
   ("angular".data, ["angular developer".data, "angularjs developer".data]),
   ("spring".data, ["spring developer".data, "spring boot developer".data]),
   ("aws".data, ["aws developer".data, "cloud developer".data, "devops engineer".data]),
   ("fullstack".data, ["full stack developer".data, "fullstack developer".data]),
   ("software development".data, ["software developer".data, "software engineer".data, "developer".data, "engineer".data]),
   ("Database".data, ["sql".data, "mysql".data, "postgresql".data, "postgres".data, "database".data])]

/-- `MatchingEngine._extract_technologies_from_role_title`: the keys of
the dictionary whose patterns occur in the lowercased role title. -/
def _extract_technologies_from_role_title (role_title : Str) : List Str :=
  let role_lower := pyLower role_title
  (title_tech_patterns.filter (fun g => g.2.any (fun p => pyIn p role_lower))).map (·.1)

/-- Technology dictionary of `_extract_technologies_from_description`. -/
def tech_patterns_desc : List (Str × List Str) :=
  [("python".data, ["python".data, "django".data, "flask".data, "fastapi".data, "pandas".data, "numpy".data]),
   ("java".data, ["java".data, "spring".data, "hibernate".data, "maven".data, "jsp".data, "spring boot".data]),
   ("javascript".data, ["javascript".data, "js".data, "node.js".data, "nodejs".data, "react".data, "angular".data, "vue".data]),
   ("dotnet".data, [".net".data, "c#".data, "asp.net".data, "mvc".data, "entity framework".data]),
   ("php".data, ["php".data, "laravel".data, "codeigniter".data, "symfony".data]),
   ("databases".data, ["mysql".data, "postgresql".data, "mongodb".data, "redis".data, "oracle".data, "sql server".data]),
   ("cloud".data, ["aws".data, "azure".data, "gcp".data, "google cloud".data]),
   ("devops".data, ["docker".data, "kubernetes".data, "jenkins".data, "terraform".data, "ci/cd".data]),
   ("web".data, ["html".data, "css".data, "bootstrap".data, "sass".data]),
   ("mobile".data, ["android".data, "ios".data, "react native".data, "flutter".data]),
   ("tools".data, ["git".data, "github".data, "jira".data, "postman".data]),
   ("programming".data, ["programming".data, "coding".data, "development".data, "software development".data])]

/-- Word boundary of `\b`: exactly one side is a word character
(a missing side counts as a non-word character). -/
def wordBoundary (a b : Option Char) : Bool :=
  a.elim false isWordChar != b.elim false isWordChar

/-- Match the literal `pat` (non-empty) at the head of `s` with `\b` on
both sides, `prev` being the character before the position. -/
def wbAt (pat : Str) (prev : Option Char) (s : Str) : Bool :=
  pat.isPrefixOf s
    && wordBoundary prev pat.head?
    && wordBoundary pat.getLast? (s.drop pat.length).head?

/-- Scanner worker for `searchWB`. -/
def searchWBAux (pat : Str) (prev : Option Char) : Str → Bool
  | [] => wbAt pat prev []
  | c :: rest => wbAt pat prev (c :: rest) || searchWBAux pat (some c) rest

/-- `re.search` of `r'\b' + re.escape(pat) + r'\b'` in `s`. -/
def searchWB (pat s : Str) : Bool := searchWBAux pat none s

/-- `MatchingEngine._extract_technologies_from_description`: every
dictionary technology and every priority skill found (word-bounded) in
the lowercased description, de-duplicated (`list(set(...))`). -/
def _extract_technologies_from_description (description : Str)
    (priority_skills : List Str) : List Str :=
  if description = [] then []
  else
    let desc_lower := pyLower description
    let found_techs :=
      tech_patterns_desc.foldl
        (fun acc g => acc ++ g.2.filter (fun t => searchWB (pyLower t) desc_lower)) []
        ++ priority_skills.filter (fun sk => searchWB (pyLower sk) desc_lower)
    pySet found_techs

/-- `MatchingEngine._enhance_experience_data`: union each engagement's
lowercased stripped technologies with those inferred from the role
title and, when a description or responsibilities text is present, from
that text. -/
def _enhance_experience_data (resume_data : ResumeData)
    (job_priorities : List JobPriority) : List Engagement :=
  let all_priority_skills :=
    job_priorities.foldl (fun acc p => acc ++ p.key_skills.map pyLower) []
  resume_data.experience_timeline.map (fun e =>
    let existing_techs := pySet (e.technologies_used.map (fun t => pyStrip (pyLower t)))
    let existing_techs :=
      pySetUnion existing_techs (_extract_technologies_from_role_title (pyLower e.role))
    let job_description := if e.description ≠ [] then e.description else e.responsibilities
    let existing_techs :=
      if job_description ≠ [] then
        pySetUnion existing_techs
          (_extract_technologies_from_description job_description all_priority_skills)
      else existing_techs
    { e with technologies_used := existing_techs })

/-- Deduplication loop of `_extract_resume_skills`: keep skills longer
than one character, normalised, first occurrence wins. -/
def dedupNormalized (acc : List Str) : List Str → List Str
  | [] => acc.reverse
  | skill :: rest =>
    if skill ≠ [] ∧ (pyStrip skill).length > 1 then
      let normalized_skill := _normalize_skill (pyStrip skill)
      if acc.contains normalized_skill then dedupNormalized acc rest
      else dedupNormalized (normalized_skill :: acc) rest
    else dedupNormalized acc rest

/-- `MatchingEngine._extract_resume_skills`: the skill list, the
structured-data skill list and every engagement technology, stripped,
non-empty, normalised and de-duplicated in order. -/
def _extract_resume_skills (resume_data : ResumeData) : List Str :=
  let skills :=
    (resume_data.skills.map pyStrip).filter (· ≠ [])
    ++ (resume_data.structured_skills.map pyStrip).filter (· ≠ [])
    ++ (resume_data.experience_timeline.foldl
        (fun acc e => acc ++ (e.technologies_used.map pyStrip).filter (· ≠ [])) [])
  dedupNormalized [] skills

/-! Role-priority detection (`_auto_detect_job_priorities`,
`_extract_job_priorities`).  The detector is written over its catalog
argument (`Engine.catalog`); the inline static table of the source is
`role_detection_patterns` below. -/

/-- Primary detection score of one catalog entry:
`2 * count(pattern in title+description) + count(key skill occurring in
some primary skill)`. -/
def primaryScoreOf (all_text : Str) (primary_skills : List Str) (e : RolePattern) : ℕ :=
  2 * e.patterns.countP (fun p => pyIn p all_text)
    + e.key_skills.countP
        (fun sk => primary_skills.any (fun ps => pyIn (pyLower sk) (pyLower ps)))

/-- Secondary detection score of one catalog entry:
`count(pattern) + count(key skill in secondary) + 0.5 * count(key skill
in primary)`. -/
def secondaryScoreOf (all_text : Str) (primary_skills secondary_skills : List Str)
    (e : RolePattern) : ℚ :=
  (e.patterns.countP (fun p => pyIn p all_text) : ℚ)
    + (e.key_skills.countP
        (fun sk => secondary_skills.any (fun ss => pyIn (pyLower sk) (pyLower ss))) : ℚ)
    + 0.5 * (e.key_skills.countP
        (fun sk => primary_skills.any (fun ps => pyIn (pyLower sk) (pyLower ps))) : ℚ)

/-- The `f"{job_title} {job_description}"` text scanned for patterns. -/
def detectorText (jd : JdData) : Str :=
  pyLower jd.job_title ++ ' ' :: pyLower jd.description

/-- Primary-selection loop: best strictly-greater score wins, starting
from score 0, so the first catalog entry attaining the maximum is
kept. -/
def pickPrimary (all_text : Str) (primary_skills : List Str)
    (catalog : List RolePattern) : Option RolePattern × ℕ :=
  catalog.foldl
    (fun acc e =>
      let total_score := primaryScoreOf all_text primary_skills e
      if total_score > acc.2 then (some e, total_score) else acc)
    (none, 0)

/-- Skill-cluster fallback table of `_auto_detect_job_priorities`. -/
def role_mappings : List (List Str × Str × List Str) :=
  [(["python".data, "django".data, "flask".data, "fastapi".data], ("Python Developer".data, ["python".data, "django".data, "flask".data, "fastapi".data])),
   (["java".data, "spring".data, "hibernate".data, "jsp".data], ("Java Developer".data, ["java".data, "spring".data, "hibernate".data, "maven".data])),
   ([".net".data, "c#".data, "asp.net".data, "mvc".data], (".NET Developer".data, ["c#".data, ".net".data, "asp.net".data, "mvc".data])),
   (["javascript".data, "react".data, "angular".data, "vue".data, "node.js".data], ("JavaScript Developer".data, ["javascript".data, "react".data, "angular".data, "node.js".data])),
   (["php".data, "laravel".data, "codeigniter".data], ("PHP Developer".data, ["php".data, "laravel".data, "mysql".data])),
   (["docker".data, "kubernetes".data, "jenkins".data, "terraform".data, "aws".data], ("DevOps Engineer".data, ["docker".data, "kubernetes".data, "aws".data, "jenkins".data])),
   (["android".data, "ios".data, "react native".data, "flutter".data], ("Mobile Developer".data, ["android".data, "ios".data, "react native".data, "flutter".data]))]

/-- The generic last-resort priority. -/
def genericSoftwareDeveloper : JobPriority :=
  ⟨"Software Developer".data, 1,
   ["programming".data, "software development".data, "coding".data, "problem solving".data], 1⟩

/-- `MatchingEngine._auto_detect_job_priorities` over a catalog: pick
the strictly best-scoring entry as priority 1, the top two remaining
positive secondary scorers as priorities 2 and 3 (stable sort), then
the skill-cluster fallback and the generic fallback. -/
def _auto_detect_job_priorities (catalog : List RolePattern) (jd_data : JdData) :
    List JobPriority :=
  let primary_skills := jd_data.primary_skills
  let secondary_skills := jd_data.secondary_skills
  let all_text := detectorText jd_data
  let pick := pickPrimary all_text primary_skills catalog
  let priorities : List JobPriority :=
    match pick with
    | (some primary_match, primary_score) =>
      if primary_score > 0 then
        [⟨primary_match.role, 1, primary_match.key_skills, primary_match.weight⟩]
      else []
    | (none, _) => []
  let priorities :=
    if priorities.length < 3 then
      let secondary_candidates :=
        (catalog.filter (fun e =>
          match pick.1 with
          | some primary_match => !(e.role == primary_match.role)
          | none => true)).filterMap (fun e =>
            let total_score := secondaryScoreOf all_text primary_skills secondary_skills e
            if total_score > 0 then some (e, total_score) else none)
      let sorted :=
        List.insertionSort (fun a b : RolePattern × ℚ => b.2 ≤ a.2) secondary_candidates
      priorities ++ (sorted.take 2).enum.map (fun ic =>
        let priority_level := ic.1 + 2
        ⟨ic.2.1.role, priority_level, ic.2.1.key_skills,
         if priority_level = 2 then 0.8 else 0.6⟩)
    else priorities
  let priorities :=
    if priorities.isEmpty ∧ ¬primary_skills.isEmpty then
      let primary_skills_lower := primary_skills.map pyLower
      let best := role_mappings.foldl
        (fun acc m =>
          let match_count := m.1.countP
            (fun tech => primary_skills_lower.any (fun sk => pyIn tech sk))
          if match_count > acc.2 then (some m.2, match_count) else acc)
        ((none : Option (Str × List Str)), 0)
      match best.1 with
      | some rm => [⟨rm.1, 1, rm.2, 1⟩]
      | none => [⟨"Software Developer".data, 1, primary_skills.take 8, 1⟩]
    else priorities
  if priorities.isEmpty then [genericSoftwareDeveloper] else priorities

/-- `MatchingEngine._extract_job_priorities`: a non-empty manual list
fully overrides auto-detection. -/
def _extract_job_priorities (catalog : List RolePattern) (jd_data : JdData)
    (manual_priorities : List JobPriority) : List JobPriority :=
  if !manual_priorities.isEmpty then manual_priorities
  else _auto_detect_job_priorities catalog jd_data

/-- Catalog entries 1-20 of `role_detection_patterns`. -/
def roleCatalogPart0 : List RolePattern :=
  [
   ⟨"Python Developer".data, ["python".data, "django".data, "flask".data, "fastapi".data, "pandas".data, "numpy".data], ["python developer".data, "python".data, "django".data, "flask".data, "fastapi".data], 1⟩,
   ⟨"Java Developer".data, ["java".data, "spring".data, "hibernate".data, "jsp".data, "maven".data, "spring boot".data], ["java developer".data, "java".data, "spring".data, "j2ee".data, "jsp".data, "spring boot".data], 1⟩,
   ⟨".NET Developer".data, ["c#".data, ".net".data, "asp.net".data, "sql server".data, "mvc".data, "entity framework".data], [".net developer".data, ".net".data, "dotnet".data, "c#".data, "asp.net".data, "mvc".data], 1⟩,
   ⟨"JavaScript Developer".data, ["javascript".data, "react".data, "angular".data, "vue".data, "node.js".data, "express".data], ["javascript developer".data, "js developer".data, "react developer".data, "angular developer".data, "node.js".data, "frontend developer".data], 1⟩,
   ⟨"PHP Developer".data, ["php".data, "laravel".data, "codeigniter".data, "symfony".data, "mysql".data, "wordpress".data], ["php developer".data, "php".data, "laravel".data, "codeigniter".data, "wordpress".data], 1⟩,
   ⟨"Ruby Developer".data, ["ruby".data, "ruby on rails".data, "rails".data, "rspec".data, "postgresql".data], ["ruby developer".data, "ruby".data, "rails".data, "ruby on rails".data], 1⟩,
   ⟨"Go Developer".data, ["go".data, "golang".data, "gin".data, "gorilla".data, "postgresql".data, "redis".data], ["go developer".data, "golang developer".data, "go".data, "golang".data], 1⟩,
   ⟨"DevOps Engineer".data, ["docker".data, "kubernetes".data, "jenkins".data, "terraform".data, "aws".data, "azure".data], ["devops engineer".data, "devops".data, "infrastructure engineer".data, "cloud engineer".data, "docker".data, "kubernetes".data], 1⟩,
   ⟨"Data Scientist".data, ["python".data, "machine learning".data, "pandas".data, "numpy".data, "tensorflow".data, "pytorch".data], ["data scientist".data, "machine learning engineer".data, "ml engineer".data, "data analyst".data], 1⟩,
   ⟨"Mobile Developer".data, ["android".data, "ios".data, "react native".data, "flutter".data, "swift".data, "kotlin".data], ["mobile developer".data, "android developer".data, "ios developer".data, "react native".data, "flutter".data], 1⟩,
   ⟨"Full Stack Developer".data, ["javascript".data, "react".data, "node.js".data, "python".data, "django".data, "postgresql".data], ["full stack developer".data, "fullstack developer".data, "full-stack developer".data], 1⟩,
   ⟨"Frontend Developer".data, ["html".data, "css".data, "javascript".data, "react".data, "angular".data, "vue".data], ["frontend developer".data, "front-end developer".data, "ui developer".data, "web developer".data], 1⟩,
   ⟨"Backend Developer".data, ["api".data, "database".data, "microservices".data, "rest".data, "sql".data, "nosql".data], ["backend developer".data, "back-end developer".data, "api developer".data, "server developer".data], 1⟩,
   ⟨"QA Engineer".data, ["testing".data, "automation".data, "selenium".data, "junit".data, "pytest".data, "cypress".data], ["qa engineer".data, "quality assurance".data, "test engineer".data, "automation engineer".data], 1⟩,
   ⟨"Business Analyst".data, ["business analysis".data, "requirement gathering".data, "stakeholder management".data, "documentation".data, "process analysis".data, "data analysis".data], ["business analyst".data, "ba ".data, "requirements analyst".data, "systems analyst".data, "process analyst".data], 1⟩,
   ⟨"Project Manager".data, ["project management".data, "agile".data, "scrum".data, "stakeholder management".data, "planning".data, "coordination".data], ["project manager".data, "program manager".data, "delivery manager".data, "scrum master".data], 1⟩,
   ⟨"Data Analyst".data, ["data analysis".data, "excel".data, "power bi".data, "sql".data, "reporting".data, "dashboard".data], ["data analyst".data, "business intelligence".data, "reporting analyst".data, "data scientist".data], 1⟩,
   ⟨"Cloud Engineer".data, ["aws".data, "azure".data, "gcp".data, "cloudformation".data, "terraform".data, "cloud architecture".data], ["cloud engineer".data, "aws engineer".data, "azure engineer".data, "cloud solutions architect".data, "gcp engineer".data], 1⟩,
   ⟨"AI/ML Engineer".data, ["machine learning".data, "deep learning".data, "tensorflow".data, "pytorch".data, "scikit-learn".data, "nlp".data], ["ai engineer".data, "ml engineer".data, "machine learning engineer".data, "deep learning engineer".data], 1⟩,
   ⟨"Cybersecurity Engineer".data, ["security".data, "network security".data, "penetration testing".data, "firewalls".data, "siem".data, "vulnerability assessment".data], ["cybersecurity".data, "security engineer".data, "information security".data, "infosec".data, "network security".data], 1⟩
  ]

/-- Catalog entries 21-40 of `role_detection_patterns`. -/
def roleCatalogPart1 : List RolePattern :=
  [
   ⟨"UI/UX Designer".data, ["ux".data, "ui".data, "figma".data, "adobe xd".data, "prototyping".data, "user research".data], ["ui designer".data, "ux designer".data, "ui/ux".data, "user experience designer".data, "interaction designer".data], 1⟩,
   ⟨"Database Administrator".data, ["sql".data, "oracle".data, "mysql".data, "postgresql".data, "database administration".data, "performance tuning".data], ["dba".data, "database administrator".data, "sql dba".data, "oracle dba".data], 1⟩,
   ⟨"Site Reliability Engineer".data, ["sre".data, "monitoring".data, "incident management".data, "prometheus".data, "grafana".data, "reliability engineering".data], ["site reliability engineer".data, "sre".data, "system reliability".data, "infrastructure reliability".data], 1⟩,
   ⟨"System Administrator".data, ["linux".data, "windows server".data, "networking".data, "bash".data, "powershell".data, "active directory".data], ["system administrator".data, "sysadmin".data, "windows admin".data, "linux admin".data], 1⟩,
   ⟨"Game Developer".data, ["unity".data, "unreal engine".data, "c++".data, "c#".data, "game design".data, "3d graphics".data], ["game developer".data, "unity developer".data, "unreal developer".data, "game programmer".data], 1⟩,
   ⟨"Blockchain Developer".data, ["solidity".data, "ethereum".data, "smart contracts".data, "web3".data, "blockchain".data, "nfts".data], ["blockchain developer".data, "smart contract developer".data, "solidity".data, "web3 developer".data], 1⟩,
   ⟨"Embedded Systems Engineer".data, ["embedded c".data, "firmware".data, "microcontrollers".data, "rtos".data, "iot".data, "c++".data], ["embedded engineer".data, "embedded systems".data, "firmware engineer".data, "iot developer".data], 1⟩,
   ⟨"ETL Developer".data, ["etl".data, "informatica".data, "data warehousing".data, "ssis".data, "data pipelines".data, "sql".data], ["etl developer".data, "data warehouse developer".data, "data integration".data, "ssis developer".data], 1⟩,
   ⟨"Product Architect".data, ["product architecture".data, "system design".data, "product strategy".data, "technical leadership".data, "requirement analysis".data], ["product architect".data, "product architecture".data, "technical product architect".data], 1⟩,
   ⟨"Software Architect".data, ["software architecture".data, "system design".data, "microservices".data, "design patterns".data, "scalability".data, "performance tuning".data], ["software architect".data, "technical architect".data, "solution designer".data, "system architect".data], 1⟩,
   ⟨"Business Development Executive".data, ["business development".data, "sales".data, "lead generation".data, "client acquisition".data, "negotiation".data, "partnerships".data], ["business development executive".data, "bde".data, "business development".data, "sales executive".data, "client acquisition".data], 1⟩,
   ⟨"Sales Executive".data, ["sales".data, "lead generation".data, "cold calling".data, "negotiation".data, "crm".data, "relationship management".data], ["sales executive".data, "sales associate".data, "sales representative".data, "sales manager".data], 1⟩,
   ⟨"Business Associate".data, ["business development".data, "market research".data, "sales".data, "partnerships".data, "communication".data], ["business associate".data, "business partner".data, "associate - business development".data], 1⟩,
   ⟨"MERN Stack Developer".data, ["mongodb".data, "express".data, "react".data, "node.js".data, "javascript".data, "fullstack".data], ["mern stack developer".data, "mern developer".data, "mern".data], 1⟩,
   ⟨"Quality Analyst".data, ["quality analysis".data, "manual testing".data, "automation testing".data, "bug tracking".data, "test cases".data], ["quality analyst".data, "qa analyst".data, "quality analysis".data, "qa tester".data], 1⟩,
   ⟨"Graphic Designer".data, ["graphic design".data, "photoshop".data, "illustrator".data, "corel draw".data, "creativity".data, "branding".data], ["graphic designer".data, "visual designer".data, "graphics".data, "creative designer".data], 1⟩,
   ⟨"Android Developer".data, ["android".data, "java".data, "kotlin".data, "mobile apps".data, "android studio".data], ["android developer".data, "android engineer".data, "mobile android".data], 1⟩,
   ⟨"Flutter Developer".data, ["flutter".data, "dart".data, "mobile development".data, "cross-platform".data, "firebase".data], ["flutter developer".data, "flutter engineer".data, "flutter mobile".data], 1⟩,
   ⟨"React Native Developer".data, ["react native".data, "javascript".data, "mobile apps".data, "ios".data, "android".data], ["react native developer".data, "rn developer".data, "reactnative".data], 1⟩,
   ⟨"Laravel Developer".data, ["php".data, "laravel".data, "mysql".data, "eloquent".data, "backend development".data], ["laravel developer".data, "php laravel".data, "laravel".data], 1⟩
  ]

/-- Catalog entries 41-60 of `role_detection_patterns`. -/
def roleCatalogPart2 : List RolePattern :=
  [
   ⟨"Office Administrative Executive".data, ["administration".data, "office management".data, "coordination".data, "documentation".data, "ms office".data], ["administrative executive".data, "office executive".data, "admin executive".data, "office administrator".data], 1⟩,
   ⟨"Sales and Marketing Executive".data, ["sales".data, "marketing".data, "digital marketing".data, "business development".data, "crm".data, "advertising".data], ["sales and marketing executive".data, "sales & marketing".data, "marketing executive".data], 1⟩,
   ⟨"Blue Prism Developer".data, ["rpa".data, "blue prism".data, "automation".data, "process automation".data, "bots".data], ["blue prism developer".data, "rpa blue prism".data, "automation developer".data], 1⟩,
   ⟨"Database Management Specialist".data, ["database management".data, "sql".data, "mysql".data, "oracle".data, "postgresql".data, "data migration".data], ["database management".data, "dbms specialist".data, "database support".data], 1⟩,
   ⟨"Mechanical Engineer".data, ["autocad".data, "solidworks".data, "catia".data, "cad".data, "manufacturing".data, "design".data, "mechanical design".data, "thermodynamics".data, "fluid mechanics".data], ["mechanical engineer".data, "mechanical".data, "manufacturing engineer".data, "design engineer".data], 1⟩,
   ⟨"Civil Engineer".data, ["autocad".data, "civil 3d".data, "structural design".data, "construction".data, "surveying".data, "site planning".data, "structural analysis".data, "revit".data], ["civil engineer".data, "civil engineering".data, "structural engineer".data, "construction engineer".data, "site engineer".data], 1⟩,
   ⟨"Electrical Engineer".data, ["circuit design".data, "pcb design".data, "plc".data, "scada".data, "electrical systems".data, "power systems".data, "autocad electrical".data, "matlab".data], ["electrical engineer".data, "electrical".data, "power engineer".data, "electronics engineer".data], 1⟩,
   ⟨"Aeronautical Engineer".data, ["aerodynamics".data, "aircraft design".data, "catia".data, "ansys".data, "cfd".data, "structural analysis".data, "flight mechanics".data, "aviation".data], ["aeronautical engineer".data, "aerospace engineer".data, "aircraft engineer".data, "aviation engineer".data], 1⟩,
   ⟨"Chemical Engineer".data, ["process design".data, "chemical processes".data, "process simulation".data, "aspen plus".data, "hysys".data, "process safety".data, "plant design".data], ["chemical engineer".data, "process engineer".data, "chemical".data], 1⟩,
   ⟨"Industrial Engineer".data, ["lean manufacturing".data, "six sigma".data, "process improvement".data, "supply chain".data, "operations management".data, "quality control".data], ["industrial engineer".data, "process improvement".data, "operations engineer".data, "lean engineer".data], 1⟩,
   ⟨"Medical Doctor".data, ["clinical diagnosis".data, "patient care".data, "medical procedures".data, "mbbs".data, "md".data, "treatment planning".data, "emergency medicine".data], ["doctor".data, "physician".data, "medical officer".data, "general practitioner".data, "consultant".data], 1⟩,
   ⟨"Nurse".data, ["patient care".data, "nursing".data, "medical procedures".data, "medication administration".data, "critical care".data, "emergency response".data], ["nurse".data, "registered nurse".data, "staff nurse".data, "nursing".data, "rn".data], 1⟩,
   ⟨"Pharmacist".data, ["pharmaceutical care".data, "medication dispensing".data, "drug interactions".data, "pharmacy management".data, "clinical pharmacy".data], ["pharmacist".data, "pharmacy".data, "clinical pharmacist".data], 1⟩,
   ⟨"Accountant".data, ["accounting".data, "bookkeeping".data, "financial reporting".data, "taxation".data, "tally".data, "quickbooks".data, "gst".data, "auditing".data], ["accountant".data, "accounts executive".data, "finance executive".data, "accounting".data], 1⟩,
   ⟨"Financial Analyst".data, ["financial analysis".data, "financial modeling".data, "budgeting".data, "forecasting".data, "excel".data, "valuation".data, "investment analysis".data], ["financial analyst".data, "finance analyst".data, "investment analyst".data], 1⟩,
   ⟨"Chartered Accountant".data, ["auditing".data, "taxation".data, "financial reporting".data, "compliance".data, "ifrs".data, "ind as".data, "direct tax".data, "indirect tax".data], ["chartered accountant".data, "ca".data, "audit manager".data], 1⟩,
   ⟨"Marketing Manager".data, ["marketing strategy".data, "brand management".data, "digital marketing".data, "campaign management".data, "market research".data, "seo".data, "social media".data], ["marketing manager".data, "brand manager".data, "marketing head".data], 1⟩,
   ⟨"Digital Marketing Specialist".data, ["seo".data, "sem".data, "google ads".data, "facebook ads".data, "content marketing".data, "social media marketing".data, "email marketing".data, "analytics".data], ["digital marketing".data, "seo specialist".data, "sem specialist".data, "social media manager".data], 1⟩,
   ⟨"HR Manager".data, ["recruitment".data, "talent acquisition".data, "employee relations".data, "performance management".data, "hr policies".data, "compensation".data, "training".data], ["hr manager".data, "human resources manager".data, "hr head".data, "people manager".data], 1⟩,
   ⟨"Recruiter".data, ["recruitment".data, "talent acquisition".data, "sourcing".data, "screening".data, "interviewing".data, "candidate management".data, "ats".data], ["recruiter".data, "talent acquisition".data, "recruitment specialist".data, "hiring".data], 1⟩
  ]

/-- Catalog entries 61-80 of `role_detection_patterns`. -/
def roleCatalogPart3 : List RolePattern :=
  [
   ⟨"Teacher".data, ["teaching".data, "curriculum development".data, "classroom management".data, "lesson planning".data, "student assessment".data, "education".data], ["teacher".data, "educator".data, "faculty".data, "lecturer".data, "professor".data], 1⟩,
   ⟨"Corporate Trainer".data, ["training".data, "facilitation".data, "learning development".data, "presentation skills".data, "training design".data, "instructional design".data], ["trainer".data, "corporate trainer".data, "training specialist".data, "learning specialist".data], 1⟩,
   ⟨"Lawyer".data, ["legal research".data, "litigation".data, "contract drafting".data, "legal compliance".data, "corporate law".data, "legal advisory".data], ["lawyer".data, "advocate".data, "legal counsel".data, "attorney".data, "legal advisor".data], 1⟩,
   ⟨"Supply Chain Manager".data, ["supply chain management".data, "logistics".data, "inventory management".data, "procurement".data, "vendor management".data, "operations".data], ["supply chain manager".data, "logistics manager".data, "operations manager".data, "procurement manager".data], 1⟩,
   ⟨"Customer Support Executive".data, ["customer service".data, "communication".data, "problem solving".data, "crm".data, "call handling".data, "complaint resolution".data], ["customer support".data, "customer service".data, "support executive".data, "customer care".data], 1⟩,
   ⟨"Architect".data, ["architectural design".data, "autocad".data, "revit".data, "sketchup".data, "3d modeling".data, "building design".data, "construction drawings".data], ["architect".data, "architectural designer".data, "design architect".data], 1⟩,
   ⟨"Interior Designer".data, ["interior design".data, "space planning".data, "autocad".data, "3d max".data, "sketchup".data, "furniture design".data, "color theory".data], ["interior designer".data, "interior decorator".data, "space designer".data], 1⟩,
   ⟨"Content Writer".data, ["content writing".data, "copywriting".data, "seo writing".data, "blogging".data, "creative writing".data, "editing".data, "proofreading".data], ["content writer".data, "copywriter".data, "writer".data, "content creator".data], 1⟩,
   ⟨"Video Editor".data, ["video editing".data, "adobe premiere".data, "final cut pro".data, "after effects".data, "motion graphics".data, "color grading".data], ["video editor".data, "video producer".data, "multimedia editor".data], 1⟩,
   ⟨"Hotel Manager".data, ["hotel management".data, "hospitality".data, "guest relations".data, "operations management".data, "front office".data, "food and beverage".data], ["hotel manager".data, "hospitality manager".data, "guest relations manager".data], 1⟩,
   ⟨"Management Professional".data, ["management".data, "leadership".data, "strategy".data, "operations".data, "team management".data, "planning".data], ["manager".data, "management".data, "supervisor".data, "team lead".data], (1/2)⟩,
   ⟨"Python Developer".data, ["python".data, "django".data, "flask".data, "fastapi".data, "pandas".data, "numpy".data, "sqlalchemy".data], ["python developer".data, "python engineer".data, "django developer".data, "flask developer".data, "fastapi developer".data], 1⟩,
   ⟨"Java Developer".data, ["java".data, "spring".data, "spring boot".data, "hibernate".data, "jsp".data, "maven".data, "microservices".data], ["java developer".data, "java engineer".data, "spring developer".data, "j2ee".data, "spring boot developer".data], 1⟩,
   ⟨".NET Developer".data, ["c#".data, ".net".data, "asp.net".data, "sql server".data, "mvc".data, "entity framework".data, ".net core".data], [".net developer".data, "dotnet developer".data, "c# developer".data, "asp.net developer".data, "mvc developer".data], 1⟩,
   ⟨"JavaScript Developer".data, ["javascript".data, "react".data, "angular".data, "vue".data, "node.js".data, "express".data, "typescript".data], ["javascript developer".data, "js developer".data, "frontend developer".data, "react developer".data, "angular developer".data], 1⟩,
   ⟨"PHP Developer".data, ["php".data, "laravel".data, "codeigniter".data, "symfony".data, "mysql".data, "wordpress".data, "composer".data], ["php developer".data, "laravel developer".data, "codeigniter developer".data, "wordpress developer".data], 1⟩,
   ⟨"Ruby Developer".data, ["ruby".data, "ruby on rails".data, "rails".data, "rspec".data, "postgresql".data, "sinatra".data], ["ruby developer".data, "rails developer".data, "ruby on rails developer".data], 1⟩,
   ⟨"Go Developer".data, ["go".data, "golang".data, "gin".data, "gorilla".data, "postgresql".data, "redis".data, "microservices".data], ["go developer".data, "golang developer".data, "go engineer".data], 1⟩,
   ⟨"C++ Developer".data, ["c++".data, "stl".data, "boost".data, "qt".data, "visual studio".data, "object oriented programming".data], ["c++ developer".data, "cpp developer".data, "c++ engineer".data, "c++ programmer".data], 1⟩,
   ⟨"Rust Developer".data, ["rust".data, "cargo".data, "systems programming".data, "memory safety".data, "concurrency".data], ["rust developer".data, "rust engineer".data, "rust programmer".data], 1⟩
  ]

/-- Catalog entries 81-100 of `role_detection_patterns`. -/
def roleCatalogPart4 : List RolePattern :=
  [
   ⟨"Scala Developer".data, ["scala".data, "akka".data, "play framework".data, "spark".data, "functional programming".data], ["scala developer".data, "scala engineer".data, "scala programmer".data], 1⟩,
   ⟨"Kotlin Developer".data, ["kotlin".data, "android".data, "spring boot".data, "coroutines".data, "jetpack".data], ["kotlin developer".data, "kotlin engineer".data, "kotlin programmer".data], 1⟩,
   ⟨"Swift Developer".data, ["swift".data, "ios".data, "xcode".data, "cocoa touch".data, "uikit".data, "swiftui".data], ["swift developer".data, "swift engineer".data, "swift programmer".data], 1⟩,
   ⟨"Full Stack Developer".data, ["javascript".data, "react".data, "node.js".data, "python".data, "django".data, "postgresql".data, "mongodb".data], ["full stack developer".data, "fullstack developer".data, "full-stack developer".data, "full stack engineer".data], 1⟩,
   ⟨"Frontend Developer".data, ["html".data, "css".data, "javascript".data, "react".data, "angular".data, "vue".data, "webpack".data, "sass".data], ["frontend developer".data, "front-end developer".data, "ui developer".data, "web developer".data], 1⟩,
   ⟨"Backend Developer".data, ["api".data, "database".data, "microservices".data, "rest".data, "sql".data, "nosql".data, "redis".data], ["backend developer".data, "back-end developer".data, "api developer".data, "server developer".data], 1⟩,
   ⟨"MERN Stack Developer".data, ["mongodb".data, "express".data, "react".data, "node.js".data, "javascript".data, "rest api".data], ["mern stack developer".data, "mern developer".data, "mern stack".data], 1⟩,
   ⟨"MEAN Stack Developer".data, ["mongodb".data, "express".data, "angular".data, "node.js".data, "javascript".data, "typescript".data], ["mean stack developer".data, "mean developer".data, "mean stack".data], 1⟩,
   ⟨"Android Developer".data, ["android".data, "java".data, "kotlin".data, "android studio".data, "firebase".data, "rest api".data], ["android developer".data, "android engineer".data, "mobile android developer".data], 1⟩,
   ⟨"iOS Developer".data, ["ios".data, "swift".data, "objective-c".data, "xcode".data, "cocoa touch".data, "core data".data], ["ios developer".data, "ios engineer".data, "iphone developer".data], 1⟩,
   ⟨"Flutter Developer".data, ["flutter".data, "dart".data, "mobile development".data, "cross-platform".data, "firebase".data], ["flutter developer".data, "flutter engineer".data, "flutter mobile developer".data], 1⟩,
   ⟨"React Native Developer".data, ["react native".data, "javascript".data, "mobile apps".data, "ios".data, "android".data, "redux".data], ["react native developer".data, "rn developer".data, "react native engineer".data], 1⟩,
   ⟨"Game Developer".data, ["unity".data, "unreal engine".data, "c++".data, "c#".data, "game design".data, "3d graphics".data], ["game developer".data, "unity developer".data, "unreal developer".data, "game programmer".data], 1⟩,
   ⟨"Embedded Systems Engineer".data, ["embedded c".data, "firmware".data, "microcontrollers".data, "rtos".data, "iot".data, "arm".data], ["embedded engineer".data, "embedded systems".data, "firmware engineer".data, "iot developer".data], 1⟩,
   ⟨"Blockchain Developer".data, ["solidity".data, "ethereum".data, "smart contracts".data, "web3".data, "blockchain".data, "cryptocurrency".data], ["blockchain developer".data, "smart contract developer".data, "web3 developer".data, "crypto developer".data], 1⟩,
   ⟨"Data Scientist".data, ["python".data, "machine learning".data, "pandas".data, "numpy".data, "tensorflow".data, "pytorch".data, "statistics".data], ["data scientist".data, "ml scientist".data, "research scientist".data], 1⟩,
   ⟨"Data Analyst".data, ["data analysis".data, "excel".data, "power bi".data, "tableau".data, "sql".data, "python".data, "statistics".data], ["data analyst".data, "business intelligence analyst".data, "analytics analyst".data], 1⟩,
   ⟨"Data Engineer".data, ["python".data, "spark".data, "hadoop".data, "kafka".data, "airflow".data, "etl".data, "data pipelines".data], ["data engineer".data, "big data engineer".data, "data platform engineer".data], 1⟩,
   ⟨"Machine Learning Engineer".data, ["machine learning".data, "deep learning".data, "tensorflow".data, "pytorch".data, "python".data, "mlops".data], ["machine learning engineer".data, "ml engineer".data, "ai engineer".data, "deep learning engineer".data], 1⟩,
   ⟨"Business Intelligence Analyst".data, ["power bi".data, "tableau".data, "sql".data, "data visualization".data, "reporting".data, "dax".data], ["business intelligence".data, "bi analyst".data, "bi developer".data, "reporting analyst".data], 1⟩
  ]

/-- Catalog entries 101-120 of `role_detection_patterns`. -/
def roleCatalogPart5 : List RolePattern :=
  [
   ⟨"ETL Developer".data, ["etl".data, "informatica".data, "ssis".data, "data warehousing".data, "sql".data, "talend".data], ["etl developer".data, "data warehouse developer".data, "informatica developer".data], 1⟩,
   ⟨"Tableau Developer".data, ["tableau".data, "data visualization".data, "sql".data, "dashboard design".data, "analytics".data], ["tableau developer".data, "tableau consultant".data, "tableau specialist".data], 1⟩,
   ⟨"Power BI Developer".data, ["power bi".data, "dax".data, "power query".data, "data modeling".data, "sql".data, "excel".data], ["power bi developer".data, "powerbi developer".data, "power bi consultant".data], 1⟩,
   ⟨"DevOps Engineer".data, ["docker".data, "kubernetes".data, "jenkins".data, "terraform".data, "aws".data, "azure".data, "ci/cd".data], ["devops engineer".data, "devops".data, "infrastructure engineer".data, "sre".data], 1⟩,
   ⟨"Cloud Engineer".data, ["aws".data, "azure".data, "gcp".data, "terraform".data, "cloudformation".data, "cloud architecture".data], ["cloud engineer".data, "aws engineer".data, "azure engineer".data, "cloud architect".data], 1⟩,
   ⟨"AWS Solutions Architect".data, ["aws".data, "ec2".data, "s3".data, "lambda".data, "cloudformation".data, "vpc".data, "iam".data], ["aws solutions architect".data, "aws architect".data, "cloud solutions architect".data], 1⟩,
   ⟨"Azure Cloud Engineer".data, ["azure".data, "azure devops".data, "arm templates".data, "azure functions".data, "active directory".data], ["azure engineer".data, "azure cloud engineer".data, "azure developer".data], 1⟩,
   ⟨"Site Reliability Engineer".data, ["sre".data, "monitoring".data, "prometheus".data, "grafana".data, "kubernetes".data, "incident management".data], ["site reliability engineer".data, "sre".data, "reliability engineer".data], 1⟩,
   ⟨"Kubernetes Engineer".data, ["kubernetes".data, "docker".data, "helm".data, "container orchestration".data, "microservices".data], ["kubernetes engineer".data, "k8s engineer".data, "container engineer".data], 1⟩,
   ⟨"System Administrator".data, ["linux".data, "windows server".data, "networking".data, "bash".data, "powershell".data, "active directory".data], ["system administrator".data, "sysadmin".data, "systems admin".data, "infrastructure admin".data], 1⟩,
   ⟨"Network Engineer".data, ["networking".data, "cisco".data, "routing".data, "switching".data, "firewalls".data, "tcp/ip".data], ["network engineer".data, "network administrator".data, "network specialist".data], 1⟩,
   ⟨"Cybersecurity Engineer".data, ["security".data, "penetration testing".data, "vulnerability assessment".data, "firewalls".data, "siem".data], ["cybersecurity engineer".data, "security engineer".data, "infosec engineer".data], 1⟩,
   ⟨"Penetration Tester".data, ["penetration testing".data, "ethical hacking".data, "vulnerability assessment".data, "metasploit".data, "burp suite".data], ["penetration tester".data, "pen tester".data, "ethical hacker".data, "security tester".data], 1⟩,
   ⟨"Security Analyst".data, ["security monitoring".data, "threat analysis".data, "siem".data, "incident response".data, "log analysis".data], ["security analyst".data, "cybersecurity analyst".data, "infosec analyst".data], 1⟩,
   ⟨"Information Security Manager".data, ["information security".data, "risk management".data, "compliance".data, "iso 27001".data, "security policies".data], ["information security manager".data, "infosec manager".data, "security manager".data], 1⟩,
   ⟨"QA Engineer".data, ["testing".data, "automation".data, "selenium".data, "junit".data, "testng".data, "api testing".data], ["qa engineer".data, "quality assurance engineer".data, "test engineer".data], 1⟩,
   ⟨"Automation Test Engineer".data, ["selenium".data, "cypress".data, "playwright".data, "automation testing".data, "java".data, "python".data], ["automation engineer".data, "test automation engineer".data, "sdet".data], 1⟩,
   ⟨"Manual Tester".data, ["manual testing".data, "test cases".data, "bug tracking".data, "jira".data, "regression testing".data], ["manual tester".data, "manual test engineer".data, "qa tester".data], 1⟩,
   ⟨"Performance Test Engineer".data, ["performance testing".data, "jmeter".data, "loadrunner".data, "load testing".data, "stress testing".data], ["performance test engineer".data, "performance tester".data, "load test engineer".data], 1⟩,
   ⟨"Quality Analyst".data, ["quality analysis".data, "manual testing".data, "test cases".data, "bug tracking".data, "regression testing".data], ["quality analyst".data, "qa analyst".data, "software tester".data], 1⟩
  ]

/-- Catalog entries 121-140 of `role_detection_patterns`. -/
def roleCatalogPart6 : List RolePattern :=
  [
   ⟨"Database Administrator".data, ["sql".data, "oracle".data, "mysql".data, "postgresql".data, "database administration".data, "backup recovery".data], ["database administrator".data, "dba".data, "sql dba".data, "oracle dba".data], 1⟩,
   ⟨"Database Developer".data, ["sql".data, "stored procedures".data, "database design".data, "query optimization".data, "indexing".data], ["database developer".data, "sql developer".data, "database programmer".data], 1⟩,
   ⟨"Software Architect".data, ["software architecture".data, "system design".data, "microservices".data, "design patterns".data, "scalability".data], ["software architect".data, "solution architect".data, "technical architect".data], 1⟩,
   ⟨"Solutions Architect".data, ["solution architecture".data, "system design".data, "cloud architecture".data, "technical leadership".data], ["solutions architect".data, "solution architect".data, "enterprise architect".data], 1⟩,
   ⟨"Product Architect".data, ["product architecture".data, "system design".data, "technical strategy".data, "product development".data], ["product architect".data, "technical product architect".data], 1⟩,
   ⟨"UI/UX Designer".data, ["ui design".data, "ux design".data, "figma".data, "adobe xd".data, "prototyping".data, "user research".data], ["ui/ux designer".data, "ui designer".data, "ux designer".data, "product designer".data], 1⟩,
   ⟨"Graphic Designer".data, ["graphic design".data, "photoshop".data, "illustrator".data, "indesign".data, "branding".data, "visual design".data], ["graphic designer".data, "visual designer".data, "creative designer".data], 1⟩,
   ⟨"Web Designer".data, ["web design".data, "html".data, "css".data, "figma".data, "responsive design".data, "adobe xd".data], ["web designer".data, "website designer".data, "ui web designer".data], 1⟩,
   ⟨"Motion Graphics Designer".data, ["after effects".data, "motion graphics".data, "animation".data, "video editing".data, "adobe premiere".data], ["motion graphics designer".data, "motion designer".data, "animator".data], 1⟩,
   ⟨"Mechanical Engineer".data, ["autocad".data, "solidworks".data, "catia".data, "mechanical design".data, "manufacturing".data, "cad".data], ["mechanical engineer".data, "design engineer".data, "cad engineer".data, "product design engineer".data], 1⟩,
   ⟨"Mechanical Design Engineer".data, ["solidworks".data, "catia".data, "creo".data, "cad".data, "mechanical design".data, "3d modeling".data], ["mechanical design engineer".data, "design engineer mechanical".data, "cad design engineer".data], 1⟩,
   ⟨"Manufacturing Engineer".data, ["manufacturing processes".data, "production planning".data, "quality control".data, "lean manufacturing".data], ["manufacturing engineer".data, "production engineer".data, "process engineer manufacturing".data], 1⟩,
   ⟨"Production Engineer".data, ["production planning".data, "quality control".data, "process optimization".data, "manufacturing".data], ["production engineer".data, "production manager".data, "production supervisor".data], 1⟩,
   ⟨"Maintenance Engineer".data, ["preventive maintenance".data, "troubleshooting".data, "equipment maintenance".data, "reliability".data], ["maintenance engineer".data, "plant maintenance engineer".data, "facilities engineer".data], 1⟩,
   ⟨"Quality Engineer".data, ["quality control".data, "quality assurance".data, "six sigma".data, "statistical analysis".data, "iso".data], ["quality engineer".data, "quality control engineer".data, "qa engineer manufacturing".data], 1⟩,
   ⟨"Automobile Engineer".data, ["automotive engineering".data, "vehicle design".data, "catia".data, "automotive systems".data], ["automobile engineer".data, "automotive engineer".data, "vehicle engineer".data], 1⟩,
   ⟨"Civil Engineer".data, ["autocad".data, "civil 3d".data, "structural design".data, "construction".data, "surveying".data, "revit".data], ["civil engineer".data, "structural engineer".data, "construction engineer".data, "site engineer".data], 1⟩,
   ⟨"Structural Engineer".data, ["structural analysis".data, "staad pro".data, "etabs".data, "structural design".data, "rcc design".data], ["structural engineer".data, "structural design engineer".data, "structure engineer".data], 1⟩,
   ⟨"Construction Engineer".data, ["construction management".data, "site supervision".data, "project planning".data, "quantity surveying".data], ["construction engineer".data, "site engineer".data, "construction manager".data], 1⟩,
   ⟨"Quantity Surveyor".data, ["quantity surveying".data, "cost estimation".data, "bill of quantities".data, "contract management".data], ["quantity surveyor".data, "qs engineer".data, "estimator".data], 1⟩
  ]

/-- Catalog entries 141-160 of `role_detection_patterns`. -/
def roleCatalogPart7 : List RolePattern :=
  [
   ⟨"Highway Engineer".data, ["highway design".data, "transportation engineering".data, "pavement design".data, "traffic engineering".data], ["highway engineer".data, "transportation engineer".data, "traffic engineer".data], 1⟩,
   ⟨"Geotechnical Engineer".data, ["soil mechanics".data, "foundation design".data, "geotechnical investigation".data, "soil testing".data], ["geotechnical engineer".data, "soil engineer".data, "foundation engineer".data], 1⟩,
   ⟨"Electrical Engineer".data, ["electrical design".data, "power systems".data, "plc".data, "scada".data, "autocad electrical".data], ["electrical engineer".data, "power engineer".data, "electrical design engineer".data], 1⟩,
   ⟨"Electronics Engineer".data, ["circuit design".data, "pcb design".data, "embedded systems".data, "microcontrollers".data, "vlsi".data], ["electronics engineer".data, "electronics design engineer".data, "circuit design engineer".data], 1⟩,
   ⟨"Instrumentation Engineer".data, ["instrumentation".data, "control systems".data, "plc".data, "dcs".data, "scada".data, "calibration".data], ["instrumentation engineer".data, "control engineer".data, "i&c engineer".data], 1⟩,
   ⟨"Power Electronics Engineer".data, ["power electronics".data, "inverters".data, "converters".data, "motor drives".data, "power supply design".data], ["power electronics engineer".data, "power systems engineer".data], 1⟩,
   ⟨"VLSI Design Engineer".data, ["vlsi".data, "verilog".data, "vhdl".data, "rtl design".data, "asic design".data, "fpga".data], ["vlsi engineer".data, "vlsi design engineer".data, "asic design engineer".data], 1⟩,
   ⟨"Telecommunications Engineer".data, ["telecommunications".data, "networking".data, "rf engineering".data, "wireless communication".data], ["telecommunications engineer".data, "telecom engineer".data, "rf engineer".data], 1⟩,
   ⟨"Chemical Engineer".data, ["chemical processes".data, "process design".data, "aspen plus".data, "process simulation".data, "plant design".data], ["chemical engineer".data, "process engineer".data, "process design engineer".data], 1⟩,
   ⟨"Process Engineer".data, ["process optimization".data, "process design".data, "chemical engineering".data, "plant operations".data], ["process engineer".data, "process development engineer".data, "chemical process engineer".data], 1⟩,
   ⟨"Petroleum Engineer".data, ["petroleum engineering".data, "reservoir engineering".data, "drilling".data, "production engineering".data], ["petroleum engineer".data, "reservoir engineer".data, "drilling engineer".data], 1⟩,
   ⟨"Refinery Engineer".data, ["refinery operations".data, "process engineering".data, "distillation".data, "chemical processing".data], ["refinery engineer".data, "refinery operations engineer".data], 1⟩,
   ⟨"Aeronautical Engineer".data, ["aerodynamics".data, "aircraft design".data, "catia".data, "ansys".data, "cfd".data, "flight mechanics".data], ["aeronautical engineer".data, "aerospace engineer".data, "aircraft engineer".data], 1⟩,
   ⟨"Aerospace Design Engineer".data, ["aerospace design".data, "catia".data, "cfd".data, "structural analysis".data, "aircraft systems".data], ["aerospace design engineer".data, "aircraft design engineer".data], 1⟩,
   ⟨"Flight Test Engineer".data, ["flight testing".data, "test engineering".data, "data analysis".data, "aviation".data], ["flight test engineer".data, "test pilot engineer".data], 1⟩,
   ⟨"Industrial Engineer".data, ["lean manufacturing".data, "six sigma".data, "process improvement".data, "operations management".data], ["industrial engineer".data, "process improvement engineer".data, "operations engineer".data], 1⟩,
   ⟨"Lean Six Sigma Consultant".data, ["lean manufacturing".data, "six sigma".data, "process optimization".data, "continuous improvement".data], ["lean six sigma".data, "six sigma consultant".data, "lean consultant".data], 1⟩,
   ⟨"Plant Engineer".data, ["plant operations".data, "maintenance management".data, "process optimization".data, "safety management".data], ["plant engineer".data, "plant manager".data, "facility engineer".data], 1⟩,
   ⟨"Metallurgical Engineer".data, ["metallurgy".data, "materials science".data, "heat treatment".data, "welding".data, "material testing".data], ["metallurgical engineer".data, "metallurgy engineer".data, "materials engineer".data], 1⟩,
   ⟨"Biomedical Engineer".data, ["biomedical engineering".data, "medical devices".data, "biomechanics".data, "signal processing".data], ["biomedical engineer".data, "medical device engineer".data, "clinical engineer".data], 1⟩
  ]

/-- Catalog entries 161-180 of `role_detection_patterns`. -/
def roleCatalogPart8 : List RolePattern :=
  [
   ⟨"Environmental Engineer".data, ["environmental engineering".data, "waste management".data, "water treatment".data, "pollution control".data], ["environmental engineer".data, "environmental consultant".data, "sustainability engineer".data], 1⟩,
   ⟨"Safety Engineer".data, ["safety management".data, "osha".data, "risk assessment".data, "industrial safety".data, "hse".data], ["safety engineer".data, "hse engineer".data, "safety officer".data], 1⟩,
   ⟨"Medical Doctor".data, ["clinical diagnosis".data, "patient care".data, "medical procedures".data, "mbbs".data, "treatment planning".data], ["doctor".data, "physician".data, "medical officer".data, "general practitioner".data, "consultant doctor".data], 1⟩,
   ⟨"Surgeon".data, ["surgery".data, "surgical procedures".data, "patient care".data, "operating room".data, "medical procedures".data], ["surgeon".data, "surgical consultant".data, "operating surgeon".data], 1⟩,
   ⟨"Dentist".data, ["dental procedures".data, "oral surgery".data, "teeth cleaning".data, "dental care".data, "orthodontics".data], ["dentist".data, "dental surgeon".data, "orthodontist".data], 1⟩,
   ⟨"Nurse".data, ["patient care".data, "nursing".data, "medication administration".data, "critical care".data, "emergency response".data], ["nurse".data, "registered nurse".data, "staff nurse".data, "nursing officer".data, "rn".data], 1⟩,
   ⟨"Pharmacist".data, ["pharmaceutical care".data, "medication dispensing".data, "drug interactions".data, "pharmacy management".data], ["pharmacist".data, "clinical pharmacist".data, "hospital pharmacist".data], 1⟩,
   ⟨"Aircraft Maintenance Engineer (AME)".data, ["aircraft maintenance".data, "dgca".data, "ame license".data, "aircraft systems".data, "troubleshooting".data, "airframe".data, "powerplant".data, "avionics".data], ["aircraft maintenance engineer".data, "ame".data, "aircraft engineer".data, "aviation maintenance".data, "aircraft mechanic".data], 1⟩,
   ⟨"Aeronautical Engineer".data, ["aerodynamics".data, "aircraft design".data, "catia".data, "ansys".data, "cfd".data, "flight mechanics".data, "structural analysis".data, "aviation".data], ["aeronautical engineer".data, "aerospace engineer".data, "aircraft engineer".data, "aviation engineer".data, "flight engineer".data], 1⟩,
   ⟨"Aerospace Design Engineer".data, ["aerospace design".data, "catia".data, "solidworks".data, "cfd analysis".data, "structural analysis".data, "aircraft systems".data, "ansys".data], ["aerospace design engineer".data, "aircraft design engineer".data, "aeronautical design engineer".data], 1⟩,
   ⟨"Avionics Engineer".data, ["avionics systems".data, "aircraft electronics".data, "navigation systems".data, "communication systems".data, "radar".data, "flight instruments".data], ["avionics engineer".data, "avionics technician".data, "aircraft electronics engineer".data], 1⟩,
   ⟨"Flight Test Engineer".data, ["flight testing".data, "test engineering".data, "data analysis".data, "aviation".data, "aircraft performance".data, "instrumentation".data], ["flight test engineer".data, "test pilot engineer".data, "flight operations engineer".data], 1⟩,
   ⟨"Aircraft Structural Engineer".data, ["structural analysis".data, "stress analysis".data, "fatigue analysis".data, "composite materials".data, "fea".data, "catia".data], ["aircraft structural engineer".data, "structures engineer".data, "airframe engineer".data], 1⟩,
   ⟨"Propulsion Engineer".data, ["jet engines".data, "turbine engines".data, "engine performance".data, "propulsion systems".data, "thermodynamics".data], ["propulsion engineer".data, "engine engineer".data, "powerplant engineer".data], 1⟩,
   ⟨"Commercial Pilot".data, ["flight operations".data, "cpl license".data, "atpl".data, "aircraft operation".data, "navigation".data, "flight safety".data, "aviation regulations".data], ["commercial pilot".data, "airline pilot".data, "cpl".data, "captain".data, "first officer".data, "co-pilot".data], 1⟩,
   ⟨"Private Pilot".data, ["ppl license".data, "flight operations".data, "aircraft operation".data, "navigation".data, "flight planning".data], ["private pilot".data, "ppl".data, "pilot trainee".data], 1⟩,
   ⟨"Helicopter Pilot".data, ["helicopter operations".data, "rotary wing".data, "flight operations".data, "aviation".data, "helicopter flying".data], ["helicopter pilot".data, "chopper pilot".data, "rotary wing pilot".data], 1⟩,
   ⟨"Flight Instructor".data, ["flight training".data, "aviation training".data, "cfi".data, "aircraft operation".data, "flight instruction".data], ["flight instructor".data, "flying instructor".data, "cfi".data, "aviation instructor".data], 1⟩,
   ⟨"Air Traffic Controller".data, ["air traffic control".data, "atc".data, "radar operations".data, "aviation safety".data, "communication".data, "flight coordination".data], ["air traffic controller".data, "atc".data, "air traffic control officer".data], 1⟩,
   ⟨"Flight Dispatcher".data, ["flight planning".data, "weather analysis".data, "route planning".data, "fuel calculation".data, "aviation regulations".data], ["flight dispatcher".data, "flight operations officer".data, "dispatcher".data], 1⟩
  ]

/-- Catalog entries 181-200 of `role_detection_patterns`. -/
def roleCatalogPart9 : List RolePattern :=
  [
   ⟨"Cabin Crew / Flight Attendant".data, ["customer service".data, "safety procedures".data, "emergency response".data, "hospitality".data, "passenger care".data, "in-flight service".data], ["cabin crew".data, "flight attendant".data, "air hostess".data, "airhostess".data, "steward".data, "stewardess".data, "flight steward".data], 1⟩,
   ⟨"Ground Staff".data, ["airport operations".data, "passenger handling".data, "check-in".data, "baggage handling".data, "customer service".data], ["ground staff".data, "ground handling".data, "airport staff".data, "airport operations".data], 1⟩,
   ⟨"Airport Operations Manager".data, ["airport management".data, "operations management".data, "aviation".data, "safety management".data, "coordination".data], ["airport operations manager".data, "airport manager".data, "aviation operations manager".data], 1⟩,
   ⟨"Aviation Safety Officer".data, ["aviation safety".data, "safety management".data, "accident investigation".data, "risk assessment".data, "compliance".data], ["aviation safety officer".data, "flight safety officer".data, "safety manager aviation".data], 1⟩,
   ⟨"Drone Pilot / UAV Operator".data, ["drone operation".data, "uav".data, "remote pilot".data, "aerial photography".data, "dgca rpas".data], ["drone pilot".data, "uav operator".data, "drone operator".data, "rpas pilot".data, "unmanned aircraft pilot".data], 1⟩,
   ⟨"Locomotive Pilot / Train Driver".data, ["train operation".data, "locomotive driving".data, "railway safety".data, "signaling".data, "railway operations".data], ["locomotive pilot".data, "loco pilot".data, "train driver".data, "engine driver".data, "motorman".data, "train operator".data], 1⟩,
   ⟨"Assistant Loco Pilot".data, ["train assistance".data, "locomotive operations".data, "railway safety".data, "signaling".data], ["assistant loco pilot".data, "alp".data, "assistant train driver".data, "assistant locomotive pilot".data], 1⟩,
   ⟨"Railway Engineer".data, ["railway engineering".data, "track maintenance".data, "signaling".data, "railway infrastructure".data], ["railway engineer".data, "permanent way engineer".data, "track engineer".data], 1⟩,
   ⟨"Signal & Telecom Engineer".data, ["railway signaling".data, "telecommunications".data, "interlocking".data, "signal maintenance".data], ["signal engineer".data, "telecom engineer railway".data, "s&t engineer".data, "signaling engineer".data], 1⟩,
   ⟨"Railway Technician".data, ["railway maintenance".data, "electrical systems".data, "mechanical systems".data, "troubleshooting".data], ["railway technician".data, "train technician".data, "railway mechanic".data], 1⟩,
   ⟨"Train Conductor / Guard".data, ["train operations".data, "passenger safety".data, "ticketing".data, "railway operations".data], ["train conductor".data, "train guard".data, "railway guard".data, "ticket collector".data], 1⟩,
   ⟨"Station Master".data, ["station management".data, "railway operations".data, "passenger coordination".data, "train scheduling".data], ["station master".data, "station manager".data, "railway station master".data], 1⟩,
   ⟨"Metro Train Operator".data, ["metro operations".data, "train driving".data, "urban transport".data, "safety protocols".data], ["metro train operator".data, "metro driver".data, "subway operator".data], 1⟩,
   ⟨"Civil Engineer".data, ["autocad".data, "civil 3d".data, "structural design".data, "construction".data, "surveying".data, "revit".data, "site planning".data], ["civil engineer".data, "structural engineer".data, "construction engineer".data, "site engineer".data, "civil engineering".data], 1⟩,
   ⟨"Structural Engineer".data, ["structural analysis".data, "staad pro".data, "etabs".data, "structural design".data, "rcc design".data, "steel structures".data], ["structural engineer".data, "structural design engineer".data, "structure engineer".data], 1⟩,
   ⟨"Construction Manager".data, ["construction management".data, "project management".data, "site supervision".data, "planning".data, "scheduling".data], ["construction manager".data, "project manager construction".data, "site manager".data], 1⟩,
   ⟨"Site Engineer".data, ["site supervision".data, "construction".data, "quality control".data, "safety management".data, "civil work".data], ["site engineer".data, "site supervisor".data, "civil site engineer".data], 1⟩,
   ⟨"Quantity Surveyor".data, ["quantity surveying".data, "cost estimation".data, "bill of quantities".data, "tendering".data, "contract management".data], ["quantity surveyor".data, "qs".data, "estimator".data, "cost estimator".data], 1⟩,
   ⟨"Highway Engineer".data, ["highway design".data, "transportation engineering".data, "pavement design".data, "traffic engineering".data, "road construction".data], ["highway engineer".data, "road engineer".data, "transportation engineer".data, "traffic engineer".data], 1⟩,
   ⟨"Geotechnical Engineer".data, ["soil mechanics".data, "foundation design".data, "geotechnical investigation".data, "soil testing".data, "ground improvement".data], ["geotechnical engineer".data, "soil engineer".data, "foundation engineer".data, "geo engineer".data], 1⟩
  ]

/-- Catalog entries 201-220 of `role_detection_patterns`. -/
def roleCatalogPart10 : List RolePattern :=
  [
   ⟨"Water Resources Engineer".data, ["hydrology".data, "water resources".data, "irrigation".data, "drainage".data, "hydraulic design".data], ["water resources engineer".data, "irrigation engineer".data, "hydraulic engineer".data], 1⟩,
   ⟨"Bridge Engineer".data, ["bridge design".data, "structural analysis".data, "bridge construction".data, "staad pro".data], ["bridge engineer".data, "bridge design engineer".data, "bridge construction engineer".data], 1⟩,
   ⟨"Urban Planner".data, ["urban planning".data, "land use planning".data, "gis".data, "city planning".data, "development planning".data], ["urban planner".data, "town planner".data, "city planner".data], 1⟩,
   ⟨"Mechanical Engineer".data, ["autocad".data, "solidworks".data, "catia".data, "mechanical design".data, "manufacturing".data, "cad".data, "thermodynamics".data], ["mechanical engineer".data, "design engineer".data, "mechanical design engineer".data, "product design engineer".data], 1⟩,
   ⟨"Mechanical Design Engineer".data, ["solidworks".data, "catia".data, "creo".data, "cad".data, "3d modeling".data, "mechanical design".data, "product development".data], ["mechanical design engineer".data, "design engineer mechanical".data, "cad design engineer".data], 1⟩,
   ⟨"Manufacturing Engineer".data, ["manufacturing processes".data, "production planning".data, "quality control".data, "lean manufacturing".data, "process optimization".data], ["manufacturing engineer".data, "production engineer".data, "process engineer manufacturing".data], 1⟩,
   ⟨"Production Engineer".data, ["production planning".data, "quality control".data, "manufacturing".data, "operations".data, "process improvement".data], ["production engineer".data, "production manager".data, "production supervisor".data], 1⟩,
   ⟨"Maintenance Engineer".data, ["preventive maintenance".data, "troubleshooting".data, "equipment maintenance".data, "reliability".data, "tpm".data], ["maintenance engineer".data, "plant maintenance engineer".data, "maintenance manager".data], 1⟩,
   ⟨"Quality Engineer".data, ["quality control".data, "quality assurance".data, "six sigma".data, "iso".data, "inspection".data, "testing".data], ["quality engineer".data, "quality control engineer".data, "qa engineer manufacturing".data], 1⟩,
   ⟨"Automobile Engineer".data, ["automotive engineering".data, "vehicle design".data, "catia".data, "automotive systems".data, "engine design".data], ["automobile engineer".data, "automotive engineer".data, "vehicle engineer".data], 1⟩,
   ⟨"HVAC Engineer".data, ["hvac".data, "air conditioning".data, "ventilation".data, "refrigeration".data, "thermal systems".data], ["hvac engineer".data, "hvac design engineer".data, "mechanical hvac".data], 1⟩,
   ⟨"Tool & Die Maker".data, ["tool design".data, "die making".data, "cnc programming".data, "machining".data, "precision engineering".data], ["tool and die maker".data, "tool designer".data, "die designer".data], 1⟩,
   ⟨"CNC Programmer".data, ["cnc programming".data, "machining".data, "g-code".data, "cnc operation".data, "manufacturing".data], ["cnc programmer".data, "cnc operator".data, "cnc machinist".data], 1⟩,
   ⟨"Welding Engineer".data, ["welding".data, "welding inspection".data, "welding codes".data, "ndt".data, "fabrication".data], ["welding engineer".data, "welding inspector".data, "welding supervisor".data], 1⟩,
   ⟨"Marine Engineer".data, ["marine engineering".data, "ship systems".data, "marine machinery".data, "propulsion systems".data], ["marine engineer".data, "ship engineer".data, "naval architect".data], 1⟩,
   ⟨"Hotel Manager".data, ["hotel management".data, "hospitality".data, "guest relations".data, "operations management".data, "front office".data], ["hotel manager".data, "hospitality manager".data, "general manager hotel".data, "hotel operations manager".data], 1⟩,
   ⟨"Front Office Manager".data, ["front office operations".data, "guest services".data, "hotel management".data, "reception".data, "booking".data], ["front office manager".data, "fom".data, "reception manager".data], 1⟩,
   ⟨"Housekeeping Manager".data, ["housekeeping".data, "hotel operations".data, "staff management".data, "cleanliness standards".data], ["housekeeping manager".data, "housekeeping supervisor".data, "executive housekeeper".data], 1⟩,
   ⟨"Food & Beverage Manager".data, ["food and beverage".data, "restaurant management".data, "menu planning".data, "hospitality".data, "service".data], ["food and beverage manager".data, "f&b manager".data, "restaurant manager".data], 1⟩,
   ⟨"Chef / Cook".data, ["cooking".data, "culinary".data, "food preparation".data, "menu planning".data, "kitchen management".data], ["chef".data, "executive chef".data, "head chef".data, "cook".data, "sous chef".data, "pastry chef".data], 1⟩
  ]

/-- Catalog entries 221-240 of `role_detection_patterns`. -/
def roleCatalogPart11 : List RolePattern :=
  [
   ⟨"Bartender".data, ["bartending".data, "mixology".data, "beverage service".data, "customer service".data, "cocktails".data], ["bartender".data, "mixologist".data, "bar manager".data], 1⟩,
   ⟨"Travel Consultant".data, ["travel planning".data, "tour packages".data, "itinerary planning".data, "customer service".data, "ticketing".data], ["travel consultant".data, "travel agent".data, "tour consultant".data, "travel advisor".data], 1⟩,
   ⟨"Tour Guide".data, ["tour guiding".data, "tourism".data, "customer service".data, "local knowledge".data, "languages".data], ["tour guide".data, "tourist guide".data, "travel guide".data], 1⟩,
   ⟨"Event Manager".data, ["event planning".data, "event management".data, "coordination".data, "logistics".data, "vendor management".data], ["event manager".data, "event planner".data, "event coordinator".data], 1⟩,
   ⟨"Cruise Ship Staff".data, ["hospitality".data, "customer service".data, "cruise operations".data, "entertainment".data, "guest services".data], ["cruise ship staff".data, "cruise director".data, "cruise attendant".data], 1⟩,
   ⟨"Store Manager".data, ["retail management".data, "inventory management".data, "sales".data, "customer service".data, "staff management".data], ["store manager".data, "retail manager".data, "shop manager".data], 1⟩,
   ⟨"Sales Associate".data, ["customer service".data, "sales".data, "product knowledge".data, "retail".data, "cash handling".data], ["sales associate".data, "retail associate".data, "sales representative retail".data], 1⟩,
   ⟨"E-commerce Manager".data, ["e-commerce".data, "online retail".data, "digital marketing".data, "inventory management".data, "analytics".data], ["e-commerce manager".data, "ecommerce manager".data, "online retail manager".data], 1⟩,
   ⟨"Merchandiser".data, ["merchandising".data, "product placement".data, "inventory".data, "visual merchandising".data, "retail".data], ["merchandiser".data, "visual merchandiser".data, "retail merchandiser".data], 1⟩,
   ⟨"Category Manager".data, ["category management".data, "product assortment".data, "pricing".data, "vendor management".data, "analytics".data], ["category manager".data, "product category manager".data], 1⟩,
   ⟨"Agricultural Engineer".data, ["agricultural engineering".data, "farm machinery".data, "irrigation".data, "soil science".data, "crop production".data], ["agricultural engineer".data, "farm engineer".data, "agri engineer".data], 1⟩,
   ⟨"Agronomist".data, ["agronomy".data, "crop science".data, "soil management".data, "pest control".data, "farming".data], ["agronomist".data, "crop consultant".data, "agricultural scientist".data], 1⟩,
   ⟨"Horticulturist".data, ["horticulture".data, "plant science".data, "gardening".data, "landscaping".data, "crop cultivation".data], ["horticulturist".data, "horticulture specialist".data, "garden specialist".data], 1⟩,
   ⟨"Agricultural Officer".data, ["agriculture".data, "farm management".data, "crop planning".data, "extension services".data, "rural development".data], ["agricultural officer".data, "agriculture officer".data, "farm officer".data], 1⟩,
   ⟨"Veterinarian".data, ["veterinary medicine".data, "animal care".data, "surgery".data, "diagnosis".data, "animal health".data], ["veterinarian".data, "vet".data, "veterinary doctor".data, "animal doctor".data], 1⟩,
   ⟨"Dairy Farm Manager".data, ["dairy farming".data, "livestock management".data, "milk production".data, "animal husbandry".data], ["dairy farm manager".data, "dairy manager".data, "livestock manager".data], 1⟩,
   ⟨"Fashion Designer".data, ["fashion design".data, "sketching".data, "pattern making".data, "garment construction".data, "textiles".data], ["fashion designer".data, "clothing designer".data, "apparel designer".data], 1⟩,
   ⟨"Textile Engineer".data, ["textile engineering".data, "fabric technology".data, "quality control".data, "textile testing".data], ["textile engineer".data, "textile technologist".data, "fabric engineer".data], 1⟩,
   ⟨"Merchandiser (Fashion)".data, ["fashion merchandising".data, "buying".data, "trend analysis".data, "product development".data, "vendor management".data], ["fashion merchandiser".data, "apparel merchandiser".data, "garment merchandiser".data], 1⟩,
   ⟨"Pattern Maker".data, ["pattern making".data, "garment construction".data, "technical drawing".data, "fashion design".data], ["pattern maker".data, "pattern cutter".data, "garment technician".data], 1⟩
  ]

/-- Catalog entries 241-260 of `role_detection_patterns`. -/
def roleCatalogPart12 : List RolePattern :=
  [
   ⟨"Video Editor".data, ["video editing".data, "adobe premiere".data, "final cut pro".data, "after effects".data, "color grading".data], ["video editor".data, "film editor".data, "post production editor".data], 1⟩,
   ⟨"Content Writer".data, ["content writing".data, "copywriting".data, "seo writing".data, "blogging".data, "creative writing".data], ["content writer".data, "copywriter".data, "writer".data, "content creator".data], 1⟩,
   ⟨"Journalist".data, ["journalism".data, "reporting".data, "news writing".data, "interviewing".data, "research".data], ["journalist".data, "reporter".data, "news reporter".data, "correspondent".data], 1⟩,
   ⟨"Photographer".data, ["photography".data, "photo editing".data, "lightroom".data, "photoshop".data, "lighting".data, "composition".data], ["photographer".data, "commercial photographer".data, "wedding photographer".data], 1⟩,
   ⟨"Cinematographer".data, ["cinematography".data, "camera operation".data, "lighting".data, "shot composition".data, "filmmaking".data], ["cinematographer".data, "director of photography".data, "dop".data, "camera operator".data], 1⟩,
   ⟨"Sound Engineer".data, ["audio engineering".data, "sound mixing".data, "recording".data, "pro tools".data, "sound design".data], ["sound engineer".data, "audio engineer".data, "sound technician".data, "mixing engineer".data], 1⟩,
   ⟨"Radio Jockey (RJ)".data, ["radio broadcasting".data, "voice modulation".data, "entertainment".data, "communication".data, "hosting".data], ["radio jockey".data, "rj".data, "radio host".data, "radio presenter".data], 1⟩,
   ⟨"Anchor / TV Presenter".data, ["anchoring".data, "presentation".data, "communication".data, "hosting".data, "broadcasting".data], ["anchor".data, "tv anchor".data, "tv presenter".data, "news anchor".data, "host".data], 1⟩,
   ⟨"Actor".data, ["acting".data, "performance".data, "theatre".data, "improvisation".data, "voice modulation".data], ["actor".data, "actress".data, "theatre artist".data, "performer".data], 1⟩,
   ⟨"Director".data, ["directing".data, "filmmaking".data, "storytelling".data, "shot composition".data, "production".data], ["director".data, "film director".data, "creative director media".data], 1⟩,
   ⟨"Animation Artist".data, ["animation".data, "2d animation".data, "3d animation".data, "maya".data, "blender".data, "character design".data], ["animator".data, "animation artist".data, "3d animator".data, "2d animator".data], 1⟩,
   ⟨"VFX Artist".data, ["vfx".data, "visual effects".data, "compositing".data, "nuke".data, "after effects".data, "cg".data], ["vfx artist".data, "visual effects artist".data, "compositing artist".data], 1⟩,
   ⟨"Personal Trainer".data, ["fitness training".data, "exercise programs".data, "nutrition".data, "strength training".data, "cardio".data], ["personal trainer".data, "fitness trainer".data, "gym trainer".data, "fitness coach".data], 1⟩,
   ⟨"Sports Coach".data, ["coaching".data, "sports training".data, "athlete development".data, "strategy".data, "motivation".data], ["sports coach".data, "coach".data, "athletic coach".data, "team coach".data], 1⟩,
   ⟨"Yoga Instructor".data, ["yoga".data, "asanas".data, "meditation".data, "pranayama".data, "wellness".data, "fitness".data], ["yoga instructor".data, "yoga teacher".data, "yoga trainer".data], 1⟩,
   ⟨"Physiotherapist".data, ["physiotherapy".data, "rehabilitation".data, "exercise therapy".data, "sports injuries".data, "manual therapy".data], ["physiotherapist".data, "physical therapist".data, "rehab specialist".data], 1⟩,
   ⟨"Sports Manager".data, ["sports management".data, "event management".data, "athlete management".data, "sports marketing".data], ["sports manager".data, "sports administrator".data, "athletic director".data], 1⟩,
   ⟨"Dietitian / Nutritionist".data, ["nutrition".data, "diet planning".data, "meal planning".data, "health assessment".data, "weight management".data], ["dietitian".data, "nutritionist".data, "diet consultant".data, "nutrition specialist".data], 1⟩,
   ⟨"Beautician / Cosmetologist".data, ["beauty treatments".data, "makeup".data, "skincare".data, "hair styling".data, "facials".data], ["beautician".data, "cosmetologist".data, "beauty therapist".data, "makeup artist".data], 1⟩,
   ⟨"Hair Stylist".data, ["hair styling".data, "hair cutting".data, "hair coloring".data, "salon management".data], ["hair stylist".data, "hairdresser".data, "hairstylist".data, "salon professional".data], 1⟩
  ]

/-- Catalog entries 261-280 of `role_detection_patterns`. -/
def roleCatalogPart13 : List RolePattern :=
  [
   ⟨"Salesforce Developer".data, ["salesforce".data, "apex".data, "visualforce".data, "lightning".data, "crm".data, "soql".data], ["salesforce developer".data, "salesforce engineer".data, "sfdc developer".data], 1⟩,
   ⟨"SAP Consultant".data, ["sap".data, "abap".data, "sap hana".data, "sap mm".data, "sap sd".data, "sap fico".data], ["sap consultant".data, "sap developer".data, "sap functional".data, "sap technical".data], 1⟩,
   ⟨"Oracle Developer".data, ["oracle".data, "pl/sql".data, "oracle forms".data, "oracle reports".data, "database".data], ["oracle developer".data, "oracle consultant".data, "pl/sql developer".data], 1⟩,
   ⟨"Shopify Developer".data, ["shopify".data, "liquid".data, "e-commerce".data, "shopify apps".data, "theme development".data], ["shopify developer".data, "shopify expert".data, "shopify theme developer".data], 1⟩,
   ⟨"WordPress Developer".data, ["wordpress".data, "php".data, "mysql".data, "woocommerce".data, "theme development".data, "plugin development".data], ["wordpress developer".data, "wp developer".data, "wordpress theme developer".data], 1⟩,
   ⟨"RPA Developer".data, ["rpa".data, "uipath".data, "automation anywhere".data, "blue prism".data, "process automation".data], ["rpa developer".data, "automation developer".data, "uipath developer".data], 1⟩,
   ⟨"ServiceNow Developer".data, ["servicenow".data, "itsm".data, "javascript".data, "workflows".data, "service portal".data], ["servicenow developer".data, "servicenow consultant".data, "snow developer".data], 1⟩,
   ⟨"Workday Consultant".data, ["workday".data, "hcm".data, "financials".data, "integration".data, "workday studio".data], ["workday consultant".data, "workday developer".data, "workday specialist".data], 1⟩,
   ⟨"Investment Banker".data, ["investment banking".data, "financial modeling".data, "valuation".data, "mergers acquisitions".data, "capital markets".data], ["investment banker".data, "ib analyst".data, "investment banking analyst".data], 1⟩,
   ⟨"Equity Research Analyst".data, ["equity research".data, "financial analysis".data, "stock analysis".data, "valuation".data, "modeling".data], ["equity research analyst".data, "equity analyst".data, "research analyst".data], 1⟩,
   ⟨"Credit Analyst".data, ["credit analysis".data, "risk assessment".data, "financial modeling".data, "loan evaluation".data], ["credit analyst".data, "credit risk analyst".data, "loan analyst".data], 1⟩,
   ⟨"Portfolio Manager".data, ["portfolio management".data, "asset allocation".data, "investment strategy".data, "risk management".data], ["portfolio manager".data, "fund manager".data, "investment manager".data], 1⟩,
   ⟨"Risk Manager".data, ["risk management".data, "risk assessment".data, "compliance".data, "regulatory".data, "internal controls".data], ["risk manager".data, "risk analyst".data, "enterprise risk manager".data], 1⟩,
   ⟨"Actuary".data, ["actuarial science".data, "statistics".data, "risk modeling".data, "insurance".data, "pension".data], ["actuary".data, "actuarial analyst".data, "actuarial consultant".data], 1⟩,
   ⟨"Treasury Manager".data, ["treasury management".data, "cash management".data, "liquidity".data, "forex".data, "financial planning".data], ["treasury manager".data, "treasury analyst".data, "cash manager".data], 1⟩,
   ⟨"Tax Consultant".data, ["taxation".data, "tax planning".data, "gst".data, "income tax".data, "tax compliance".data], ["tax consultant".data, "tax advisor".data, "tax manager".data], 1⟩,
   ⟨"Compliance Officer".data, ["compliance".data, "regulatory".data, "aml".data, "kyc".data, "risk management".data, "audit".data], ["compliance officer".data, "compliance manager".data, "regulatory compliance".data], 1⟩,
   ⟨"Insurance Underwriter".data, ["underwriting".data, "risk assessment".data, "insurance".data, "policy analysis".data], ["underwriter".data, "insurance underwriter".data, "underwriting analyst".data], 1⟩,
   ⟨"Corporate Lawyer".data, ["corporate law".data, "contract law".data, "mergers acquisitions".data, "compliance".data, "legal drafting".data], ["corporate lawyer".data, "corporate counsel".data, "in-house counsel".data], 1⟩,
   ⟨"Legal Advisor".data, ["legal advisory".data, "contract review".data, "legal compliance".data, "litigation support".data], ["legal advisor".data, "legal consultant".data, "legal analyst".data], 1⟩
  ]

/-- Catalog entries 281-300 of `role_detection_patterns`. -/
def roleCatalogPart14 : List RolePattern :=
  [
   ⟨"Patent Attorney".data, ["patent law".data, "intellectual property".data, "patent drafting".data, "trademark".data, "ip litigation".data], ["patent attorney".data, "ip attorney".data, "patent agent".data], 1⟩,
   ⟨"Research Scientist".data, ["research".data, "scientific analysis".data, "data analysis".data, "publications".data, "experimentation".data], ["research scientist".data, "scientist".data, "research associate".data, "researcher".data], 1⟩,
   ⟨"Professor".data, ["teaching".data, "research".data, "curriculum development".data, "academic writing".data, "mentoring".data], ["professor".data, "assistant professor".data, "associate professor".data], 1⟩,
   ⟨"Librarian".data, ["library management".data, "cataloging".data, "information management".data, "research assistance".data], ["librarian".data, "library manager".data, "information specialist".data], 1⟩,
   ⟨"Educational Counselor".data, ["counseling".data, "career guidance".data, "student advising".data, "educational planning".data], ["educational counselor".data, "career counselor".data, "academic counselor".data], 1⟩,
   ⟨"Social Worker".data, ["social work".data, "community development".data, "counseling".data, "case management".data, "advocacy".data], ["social worker".data, "community worker".data, "welfare officer".data], 1⟩,
   ⟨"NGO Program Manager".data, ["program management".data, "ngo operations".data, "project coordination".data, "fundraising".data, "community development".data], ["ngo program manager".data, "development officer".data, "project manager ngo".data], 1⟩,
   ⟨"Real Estate Agent".data, ["real estate".data, "property sales".data, "negotiation".data, "market analysis".data, "client relations".data], ["real estate agent".data, "property consultant".data, "realtor".data], 1⟩,
   ⟨"Property Manager".data, ["property management".data, "tenant relations".data, "maintenance".data, "lease administration".data], ["property manager".data, "facility manager".data, "building manager".data], 1⟩,
   ⟨"Insurance Agent".data, ["insurance sales".data, "policy advising".data, "customer service".data, "claims processing".data], ["insurance agent".data, "insurance advisor".data, "lic agent".data], 1⟩,
   ⟨"Claims Adjuster".data, ["claims processing".data, "investigation".data, "damage assessment".data, "negotiation".data], ["claims adjuster".data, "claims examiner".data, "insurance adjuster".data], 1⟩,
   ⟨"Game Designer".data, ["game design".data, "level design".data, "game mechanics".data, "storytelling".data, "prototyping".data], ["game designer".data, "level designer".data, "gameplay designer".data], 1⟩,
   ⟨"Musician".data, ["music".data, "performance".data, "composition".data, "music theory".data, "instruments".data], ["musician".data, "music artist".data, "composer".data, "singer".data], 1⟩,
   ⟨"Aircraft Loadmaster".data, ["load planning".data, "weight and balance".data, "cargo operations".data, "aircraft loading".data], ["loadmaster".data, "cargo specialist".data, "load planner".data], 1⟩,
   ⟨"Warehouse Manager".data, ["warehouse management".data, "inventory".data, "logistics".data, "operations".data, "wms".data], ["warehouse manager".data, "warehouse supervisor".data, "warehouse operations".data], 1⟩,
   ⟨"Logistics Coordinator".data, ["logistics".data, "supply chain".data, "coordination".data, "shipping".data, "transportation".data], ["logistics coordinator".data, "logistics executive".data, "logistics analyst".data], 1⟩,
   ⟨"Customs Officer".data, ["customs clearance".data, "import export".data, "documentation".data, "compliance".data, "trade regulations".data], ["customs officer".data, "customs executive".data, "customs specialist".data], 1⟩,
   ⟨"Ship Captain".data, ["navigation".data, "maritime operations".data, "crew management".data, "safety".data, "ship handling".data], ["ship captain".data, "master mariner".data, "ship master".data], 1⟩,
   ⟨"Port Manager".data, ["port operations".data, "cargo handling".data, "logistics".data, "maritime management".data], ["port manager".data, "harbor master".data, "port operations manager".data], 1⟩,
   ⟨"Mining Engineer".data, ["mining".data, "excavation".data, "mineral processing".data, "mine planning".data, "safety".data], ["mining engineer".data, "mine engineer".data, "mining professional".data], 1⟩
  ]

/-- Catalog entries 301-303 of `role_detection_patterns`. -/
def roleCatalogPart15 : List RolePattern :=
  [
   ⟨"Geologist".data, ["geology".data, "geological survey".data, "mineral exploration".data, "rock analysis".data], ["geologist".data, "exploration geologist".data, "geological engineer".data], 1⟩,
   ⟨"Translator".data, ["translation".data, "language proficiency".data, "localization".data, "interpretation".data], ["translator".data, "language translator".data, "localization specialist".data], 1⟩,
   ⟨"Interpreter".data, ["interpretation".data, "language proficiency".data, "simultaneous interpretation".data, "communication".data], ["interpreter".data, "language interpreter".data, "conference interpreter".data], 1⟩
  ]

/-- The inline `role_detection_patterns` table of
`_auto_detect_job_priorities` (the static role catalog; 303 entries,
split into parts only to keep elaboration linear). -/
def role_detection_patterns : List RolePattern :=
  roleCatalogPart0 ++ roleCatalogPart1 ++ roleCatalogPart2 ++ roleCatalogPart3 ++ roleCatalogPart4 ++ roleCatalogPart5 ++ roleCatalogPart6 ++ roleCatalogPart7 ++ roleCatalogPart8 ++ roleCatalogPart9 ++ roleCatalogPart10 ++ roleCatalogPart11 ++ roleCatalogPart12 ++ roleCatalogPart13 ++ roleCatalogPart14 ++ roleCatalogPart15

/-! The top-level scoring pipeline (`calculate_ats_score`). -/

/-- `MatchingEngine._extract_experience_requirement` on a JD record
carrying the numeric `experience_required` field (see `JdData`). -/
def _extract_experience_requirement (jd_data : JdData) : ℚ :=
  jd_data.experience_required

/-- The result record.  The nested `detailed_analysis` dict is modelled
by the flat fields `rejection_reason`, `required_roles`,
`candidate_experience` and `error`; its remaining entries are
diagnostics echoed from values already exposed here.  A missing key is
an empty list / `none`; `qualification_score` is 0 where the source
omits the key. -/
structure ScoreOutput where
  overall_score : ℚ
  skill_match_score : ℚ
  experience_score : ℚ
  qualification_score : ℚ
  rejection_reason : Option Str
  required_roles : List Str
  candidate_experience : List CandidateExp
  error : Option Str
deriving DecidableEq

/-- `MatchingEngine._get_default_score`. -/
def _get_default_score (error_msg : Str) : ScoreOutput :=
  ⟨0, 0, 0, 0, none, [], [], some error_msg⟩

/-- `MatchingEngine.calculate_ats_score`: requirement and priority
extraction, skill extraction and experience enrichment, the strict
relevance gate, the two scorers, and the fresh-graduate aggregation
branch.  `none` inputs model the falsy-dict guard; the `except`
handler is unreachable in the embedding (no exceptions). -/
def calculate_ats_score (eng : Engine) (jd_data : Option JdData)
    (resume_data : Option ResumeData) (skills_weightage : WeightMap)
    (manual_priorities : List JobPriority) : ScoreOutput :=
  match jd_data, resume_data with
  | some jd, some resume =>
    let jd_experience_required := _extract_experience_requirement jd
    let job_priorities := _extract_job_priorities eng.catalog jd manual_priorities
    let resume_skills := _extract_resume_skills resume
    let enhanced_experience := _enhance_experience_data resume job_priorities
    let rel := _calculate_relevant_experience eng.currentYear enhanced_experience job_priorities
    let relevant_experience_years := rel.1
    let relevance_details := rel.2
    if relevant_experience_years = 0 ∨ relevance_details.matching_jobs.length = 0 then
      { overall_score := 0, skill_match_score := 0, experience_score := 0,
        qualification_score := 0,
        rejection_reason := some "No relevant job role experience".data,
        required_roles := job_priorities.map (·.role),
        candidate_experience := enhanced_experience.map (fun e => ⟨e.role, e.company, e.duration⟩),
        error := none }
    else
      let enhanced_resume := { resume with
        skills := resume_skills, experience_timeline := enhanced_experience }
      let skills_score :=
        _calculate_complete_skills_score eng enhanced_resume.skills job_priorities skills_weightage
      let experience_score :=
        _calculate_enhanced_experience_score_v2 eng.currentYear enhanced_resume job_priorities
          jd_experience_required relevant_experience_years relevance_details
      let total_experience := resume.total_experience
      let is_fresh_graduate := total_experience = 0 ∨ enhanced_experience.isEmpty
      let final_score :=
        if is_fresh_graduate then
          if jd_experience_required > 0 then
            let penalty := minQ 30 (jd_experience_required * 10)
            maxQ 0 (skills_score - penalty)
          else skills_score
        else (skills_score + experience_score) / 2
      { overall_score := round2 (minQ 100 (maxQ 0 final_score)),
        skill_match_score := round2 skills_score,
        experience_score := round2 experience_score,
        qualification_score := 75,
        rejection_reason := none,
        required_roles := [],
        candidate_experience := [],
        error := none }
  | _, _ => _get_default_score "Missing JD or resume data".data

/-! Session ranking: the ranking block of
`matching_routes.start_matching` (lines 387-420).  `matching_results`
is the list collected from the worker pool with `as_completed`, i.e. in
thread-completion order; an entry's `ats_score` is the `overall_score`
of its score dict when scoring succeeded, `none` for an error-tagged
result (a falsy `ats_score`). -/

structure ProcessedResult where
  resume_id : ℕ
  ats_score : Option ℚ
deriving DecidableEq

/-- The `ranking_results` list: the results with a truthy `ats_score`,
in collection order, as (resume_id, overall_score) pairs. -/
def ranking_results_of (matching_results : List ProcessedResult) : List (ℕ × ℚ) :=
  matching_results.filterMap (fun r => r.ats_score.map (fun q => (r.resume_id, q)))

/-- Descending-score order of the sort key
`key=lambda x: x["ats_score"]["overall_score"], reverse=True`. -/
def rankLE (a b : ℕ × ℚ) : Prop := b.2 ≤ a.2

instance : DecidableRel rankLE := fun a b => inferInstanceAs (Decidable (b.2 ≤ a.2))

instance : IsTotal (ℕ × ℚ) rankLE := ⟨fun a b => le_total b.2 a.2⟩

instance : IsTrans (ℕ × ℚ) rankLE := ⟨fun _ _ _ h1 h2 => le_trans h2 h1⟩

/-- The ranking block: keep the results with a truthy `ats_score`,
stable-sort them by descending `overall_score` (`list.sort` with
`reverse=True` is a stable sort), and assign `rank_position` from 1 in
sorted order (`enumerate(successful_matches, 1)`). -/
def rank_candidates (matching_results : List ProcessedResult) :
    List ((ℕ × ℚ) × ℕ) :=
  let successful_matches :=
    List.insertionSort rankLE (ranking_results_of matching_results)
  successful_matches.enum.map (fun ie => (ie.2, ie.1 + 1))

/-! Shared lemmas. -/

theorem le_maxQ_left (a b : ℚ) : a ≤ maxQ a b := by
  rw [maxQ_eq_max]; exact le_max_left a b

theorem maxQ_nonneg {a b : ℚ} (ha : 0 ≤ a) : 0 ≤ maxQ a b := ha.trans (le_maxQ_left a b)

theorem minQ_le_left (a b : ℚ) : minQ a b ≤ a := by
  rw [minQ_eq_min]; exact min_le_left a b

theorem minQ_nonneg {a b : ℚ} (ha : 0 ≤ a) (hb : 0 ≤ b) : 0 ≤ minQ a b := by
  rw [minQ_eq_min]; exact le_min ha hb

theorem scanOpt_imp {α : Type} {P : α → Prop} {pAt : Str → Option α}
    (h : ∀ s v, pAt s = some v → P v) :
    ∀ {s : Str} {v : α}, scanOpt pAt s = some v → P v := by
  intro s
  induction s with
  | nil => intro v hv; exact h _ _ hv
  | cons c rest ih =>
    intro v hv
    rw [scanOpt] at hv
    cases hp : pAt (c :: rest) with
    | some w => rw [hp] at hv; cases hv; exact h _ _ hp
    | none => rw [hp] at hv; exact ih hv

theorem yAt_nonneg : ∀ (s : Str) (q : ℚ), yAt s = some q → 0 ≤ q := by
  intro s q h
  unfold yAt at h
  dsimp only at h
  split at h
  · exact absurd h (by simp)
  · split at h
    · cases h
      split
      · split
        · positivity
        · positivity
      · positivity
    · exact absurd h (by simp)

/-! ### Claim C8: skill normalisation character classes -/

theorem mem_of_mem_stripNormSuffix {c : Char} {s : Str}
    (h : c ∈ stripNormSuffix s) : c ∈ s := by
  unfold stripNormSuffix at h
  cases hf : normSuffixes.find? (fun t => t.isSuffixOf s) with
  | none => rw [hf] at h; exact h
  | some t =>
    rw [hf] at h
    dsimp only at h
    split at h
    · rw [List.mem_reverse] at h
      have h1 : c ∈ (s.take (s.length - t.length)).reverse :=
        (List.dropWhile_sublist _).subset h
      rw [List.mem_reverse] at h1
      exact List.take_subset _ _ h1
    · exact h

/-- Claim C8 (amended): `_normalize_skill` lowercases and trims, keeps
exactly the characters of the class `[\w\s+#.]` — alphanumerics,
underscore, whitespace, `+`, `#`, `.` — and removes every other
character, hyphen included; the trailing framework/js/developer/
development suffix is removed only together with the mandatory
whitespace run before it (`python developer` loses the suffix,
`reactjs` keeps it). -/
theorem C8_normalize_skill_charset (s : Str) :
    (∀ c ∈ _normalize_skill s,
      (c.isAlphanum ∨ c = '_' ∨ c.isWhitespace ∨ c = '+' ∨ c = '#' ∨ c = '.') ∧ c ≠ '-')
    ∧ _normalize_skill "python developer".data = "python".data
    ∧ _normalize_skill "reactjs".data = "reactjs".data := by
  refine ⟨?_, by decide, by decide⟩
  intro c hc
  have h1 : c ∈ (pyStrip (pyLower s)).filter normKeep := mem_of_mem_stripNormSuffix hc
  have h2 : normKeep c = true := List.of_mem_filter h1
  have h3 : (c.isAlphanum ∨ c = '_' ∨ c.isWhitespace ∨ c = '+' ∨ c = '#' ∨ c = '.') := by
    simp only [normKeep, isWordChar, Bool.or_eq_true, beq_iff_eq] at h2
    tauto
  refine ⟨h3, ?_⟩
  rintro rfl
  exact absurd h2 (by decide)

/-- Claim C8 (counterexample): a hyphen in the input is not preserved:
`react-native` normalises to `reactnative`. -/
theorem C8_hyphen_removed_counterexample :
    _normalize_skill "react-native".data = "reactnative".data ∧
    _normalize_skill "react-native".data ≠ "react-native".data := by
  constructor <;> decide

theorem C8_normalize_skill_charset_witness :
    ('r' ∈ _normalize_skill "react-native".data) ∧
    (('r'.isAlphanum ∨ 'r' = '_' ∨ 'r'.isWhitespace ∨ 'r' = '+' ∨ 'r' = '#' ∨ 'r' = '.')
      ∧ 'r' ≠ '-') :=
  ⟨by decide, (C8_normalize_skill_charset "react-native".data).1 'r' (by decide)⟩

/-! ### Claim C10: duration parsing -/

/-- Claim C10 (amended): `_extract_years_from_duration` is nonnegative
but not strictly positive: a missing duration yields 0.5, an
unrecognised one yields 1.0, year ranges are floored at 0.1, but an
explicit `N years` duration is returned unfloored, so `0 years` parses
to 0 exactly. -/
theorem C10_duration_years (cy : ℕ) (s : Str) :
    0 ≤ _extract_years_from_duration cy s
    ∧ _extract_years_from_duration cy [] = 1/2
    ∧ _extract_years_from_duration 2026 "hello world".data = 1
    ∧ _extract_years_from_duration 2026 "2022 - 2019".data = 1/10
    ∧ _extract_years_from_duration 2026 "6 months".data = 1/2
    ∧ _extract_years_from_duration 2026 "0 years".data = 0 := by
  refine ⟨?_, by norm_num [_extract_years_from_duration], by decide, by decide, by decide, by decide⟩
  unfold _extract_years_from_duration
  split
  · norm_num
  · have hq : (0:ℚ) ≤ 1/10 := by norm_num
    dsimp only
    split
    · exact maxQ_nonneg hq
    · split
      · exact maxQ_nonneg hq
      · split
        · exact maxQ_nonneg hq
        · split
          · exact maxQ_nonneg hq
          · split
            · exact maxQ_nonneg hq
            · split
              · exact scanOpt_imp yAt_nonneg (by assumption)
              · split
                · exact maxQ_nonneg hq
                · norm_num

/-- Claim C10 (counterexample): the duration string `0 years` parses to
0, not a strictly positive number of years; a relevance-gate rejection
with a non-empty matching-jobs list follows (see `C10` in the results,
and the gate condition in `calculate_ats_score`). -/
theorem C10_zero_years_counterexample :
    _extract_years_from_duration 2026 "0 years".data = 0
    ∧ ¬ (0 < _extract_years_from_duration 2026 "0 years".data)
    ∧ (_calculate_relevant_experience 2026
        [⟨"Python Developer".data, "Acme".data, "0 years".data,
          ["python".data, "django".data], [], []⟩]
        [⟨"Python Developer".data, 1, ["python".data, "django".data], 1⟩]).2.matching_jobs.length = 1
    ∧ (_calculate_relevant_experience 2026
        [⟨"Python Developer".data, "Acme".data, "0 years".data,
          ["python".data, "django".data], [], []⟩]
        [⟨"Python Developer".data, 1, ["python".data, "django".data], 1⟩]).1 = 0 := by
  have h0 : _extract_years_from_duration 2026 "0 years".data = 0 := by decide
  exact ⟨h0, by rw [h0]; norm_num, by decide, by decide⟩

/-! ### Claim C5: the experience-requirement band score -/

/-- Claim C5 (amended): for a positive requirement the score is the
claimed piecewise-linear function of `ratio = candidate / required`;
for `required_years == 0` the score is not the constant 60 but a band
of the candidate years: 60 (none), 65 (<1), 70 (1-2), 75 (2-3),
85 (3-5), 95 (5+). -/
theorem C5_requirement_score_bands (c r : ℚ) :
    (0 < r →
      _calculate_experience_requirement_score c r =
        (if 1.5 ≤ c / r then 100
         else if 1 ≤ c / r then 85 + (c / r - 1) / 0.5 * 15
         else if 0.8 ≤ c / r then 60 + (c / r - 0.8) / 0.2 * 25
         else if 0.5 ≤ c / r then 30 + (c / r - 0.5) / 0.3 * 30
         else if 0 < c then maxQ 10 (c / r * 60)
         else 10))
    ∧ _calculate_experience_requirement_score c 0 =
        (if c = 0 then 60 else if 5 ≤ c then 95 else if 3 ≤ c then 85
         else if 2 ≤ c then 75 else if 1 ≤ c then 70 else 65) := by
  constructor
  · intro hr
    have hr0 : r ≠ 0 := ne_of_gt hr
    have g15 : c ≥ r * 1.5 ↔ 1.5 ≤ c / r := by
      rw [ge_iff_le, le_div_iff₀ hr, mul_comm]
    have g1 : c ≥ r ↔ 1 ≤ c / r := by
      rw [ge_iff_le, le_div_iff₀ hr, one_mul]
    have g08 : c ≥ r * 0.8 ↔ 0.8 ≤ c / r := by
      rw [ge_iff_le, le_div_iff₀ hr, mul_comm]
    have g05 : c ≥ r * 0.5 ↔ 0.5 ≤ c / r := by
      rw [ge_iff_le, le_div_iff₀ hr, mul_comm]
    unfold _calculate_experience_requirement_score
    rw [if_neg hr0]
    by_cases h1 : 1.5 ≤ c / r
    · rw [if_pos (g15.mpr h1), if_pos h1]
    · rw [if_neg (fun hh => h1 (g15.mp hh)), if_neg h1]
      by_cases h2 : 1 ≤ c / r
      · rw [if_pos (g1.mpr h2), if_pos h2]
        have hcb : c < 1.5 * r := by
          have := lt_of_not_le h1
          rwa [div_lt_iff₀ hr] at this
        rw [minQ_eq_min, min_eq_right]
        · field_simp
          try ring
        · have hb : (c - r) / (r * 0.5) * 15 ≤ 15 := by
            rw [div_mul_eq_mul_div, div_le_iff₀ (by positivity)]
            nlinarith
          linarith
      · rw [if_neg (fun hh => h2 (g1.mp hh)), if_neg h2]
        by_cases h3 : 0.8 ≤ c / r
        · rw [if_pos (g08.mpr h3), if_pos h3]
          field_simp
          try ring
        · rw [if_neg (fun hh => h3 (g08.mp hh)), if_neg h3]
          by_cases h4 : 0.5 ≤ c / r
          · rw [if_pos (g05.mpr h4), if_pos h4]
            field_simp
            try ring
          · rw [if_neg (fun hh => h4 (g05.mp hh)), if_neg h4]
  · rfl

/-- Claim C5 (counterexample): with `required_years == 0` and five
candidate years the band score is 95, not the claimed fixed 60. -/
theorem C5_required_zero_counterexample :
    _calculate_experience_requirement_score 5 0 = 95
    ∧ _calculate_experience_requirement_score 5 0 ≠ 60 := by
  constructor <;> decide

theorem C5_requirement_score_bands_witness :
    (0:ℚ) < 3 ∧ _calculate_experience_requirement_score 4 3 = 95 := by
  refine ⟨by norm_num, ?_⟩
  have h := (C5_requirement_score_bands 4 3).1 (by norm_num)
  rw [h]
  norm_num

/-! ### Claim C6: session ranking -/

theorem rank_candidates_map_fst (matching_results : List ProcessedResult) :
    (rank_candidates matching_results).map Prod.fst
      = List.insertionSort rankLE (ranking_results_of matching_results) := by
  unfold rank_candidates
  rw [List.map_map]
  have : (Prod.fst ∘ fun ie : ℕ × ℕ × ℚ => (ie.2, ie.1 + 1)) = Prod.snd := rfl
  rw [this, List.enum_map_snd]

/-- Claim C6 (amended): the ranking block assigns `rank_position`
densely as 1..N over the successfully scored candidates, in descending
`overall_score` order, with ties broken by the order the results were
collected from the worker pool (`as_completed` order) — the sort is
stable with respect to its input list, which is the thread-completion
order, not the submission order. -/
theorem C6_ranking_dense_descending_stable
    (matching_results : List ProcessedResult) (x y : ℕ × ℚ) :
    (rank_candidates matching_results).map Prod.snd
        = List.range' 1 (ranking_results_of matching_results).length
    ∧ List.Pairwise (fun a b : (ℕ × ℚ) × ℕ => b.1.2 ≤ a.1.2)
        (rank_candidates matching_results)
    ∧ ((rank_candidates matching_results).map Prod.fst).Perm
        (ranking_results_of matching_results)
    ∧ (List.Sublist [x, y] (ranking_results_of matching_results) → y.2 ≤ x.2 →
        List.Sublist [x, y] ((rank_candidates matching_results).map Prod.fst)) := by
  refine ⟨?_, ?_, ?_, ?_⟩
  · unfold rank_candidates
    rw [List.map_map]
    have h1 : ((fun ie : ((ℕ × ℚ) × ℕ) => ie.2) ∘ fun ie : ℕ × (ℕ × ℚ) => (ie.2, ie.1 + 1))
        = (fun n => n + 1) ∘ Prod.fst := rfl
    rw [h1, ← List.map_map, List.enum_map_fst, List.length_insertionSort]
    rw [List.range'_eq_map_range]
    exact List.map_congr_left (fun a _ => Nat.add_comm a 1)
  · have hs := List.sorted_insertionSort rankLE (ranking_results_of matching_results)
    rw [← rank_candidates_map_fst matching_results] at hs
    exact (List.pairwise_map.mp hs).imp (fun h => h)
  · rw [rank_candidates_map_fst]
    exact List.perm_insertionSort rankLE (ranking_results_of matching_results)
  · intro hsub hle
    rw [rank_candidates_map_fst]
    exact List.pair_sublist_insertionSort hle hsub

/-- Claim C6 (counterexample): the sort input is the `as_completed`
collection order, not the submission order.  With submissions
`[resume 1, resume 2]` both scoring 80 and completion order
`[resume 2, resume 1]` (a permutation of the submissions, as the worker
pool may produce), resume 2 receives rank 1 and the earlier-submitted
resume 1 receives rank 2. -/
theorem C6_tie_completion_order_counterexample :
    rank_candidates [⟨2, some 80⟩, ⟨1, some 80⟩] = [((2, 80), 1), ((1, 80), 2)]
    ∧ ([⟨2, some 80⟩, ⟨1, some 80⟩] : List ProcessedResult).Perm
        [⟨1, some 80⟩, ⟨2, some 80⟩] := by
  constructor
  · decide
  · decide

theorem C6_ranking_witness :
    List.Sublist [((3:ℕ), (90:ℚ)), ((4:ℕ), (90:ℚ))]
        (ranking_results_of [⟨3, some 90⟩, ⟨5, none⟩, ⟨4, some 90⟩])
    ∧ ((90:ℚ) ≤ 90)
    ∧ List.Sublist [((3:ℕ), (90:ℚ)), ((4:ℕ), (90:ℚ))]
        ((rank_candidates [⟨3, some 90⟩, ⟨5, none⟩, ⟨4, some 90⟩]).map Prod.fst) :=
  ⟨by decide, by norm_num,
   (C6_ranking_dense_descending_stable [⟨3, some 90⟩, ⟨5, none⟩, ⟨4, some 90⟩]
      (3, 90) (4, 90)).2.2.2 (by decide) (by norm_num)⟩

/-! ### Claim C7: primary role detection -/

theorem pickPrimary_const (at_ : Str) (ps : List Str) :
    ∀ (l : List RolePattern) (cur : Option RolePattern) (curS : ℕ),
      (∀ e ∈ l, primaryScoreOf at_ ps e ≤ curS) →
      l.foldl
        (fun acc e =>
          let total_score := primaryScoreOf at_ ps e
          if total_score > acc.2 then (some e, total_score) else acc)
        (cur, curS) = (cur, curS) := by
  intro l
  induction l with
  | nil => intro cur curS _; rfl
  | cons x rest ih =>
    intro cur curS hle
    have hx : primaryScoreOf at_ ps x ≤ curS := hle x (List.mem_cons_self x rest)
    simp only [List.foldl_cons]
    rw [if_neg (by omega)]
    exact ih cur curS (fun e he => hle e (List.mem_cons_of_mem x he))

theorem pickPrimary_first_max (at_ : Str) (ps : List Str) :
    ∀ (l : List RolePattern) (cur : Option RolePattern) (curS : ℕ),
      (∃ e ∈ l, curS < primaryScoreOf at_ ps e) →
      ∃ pre best post, l = pre ++ best :: post
        ∧ l.foldl
            (fun acc e =>
              let total_score := primaryScoreOf at_ ps e
              if total_score > acc.2 then (some e, total_score) else acc)
            (cur, curS) = (some best, primaryScoreOf at_ ps best)
        ∧ curS < primaryScoreOf at_ ps best
        ∧ (∀ e ∈ pre, primaryScoreOf at_ ps e < primaryScoreOf at_ ps best)
        ∧ (∀ e ∈ post, primaryScoreOf at_ ps e ≤ primaryScoreOf at_ ps best) := by
  intro l
  induction l with
  | nil => rintro cur curS ⟨e, he, _⟩; exact absurd he (List.not_mem_nil e)
  | cons x rest ih =>
    intro cur curS hex
    by_cases hx : curS < primaryScoreOf at_ ps x
    · simp only [List.foldl_cons]
      rw [if_pos (by omega)]
      by_cases hrest : ∃ e ∈ rest, primaryScoreOf at_ ps x < primaryScoreOf at_ ps e
      · obtain ⟨pre, best, post, heq, hfold, hlt, hpre, hpost⟩ :=
          ih (some x) (primaryScoreOf at_ ps x) hrest
        refine ⟨x :: pre, best, post, by rw [heq, List.cons_append], hfold, hx.trans hlt, ?_, hpost⟩
        intro e he
        rcases List.mem_cons.mp he with rfl | he
        · exact hlt
        · exact hpre e he
      · push_neg at hrest
        refine ⟨[], x, rest, rfl, ?_, hx, ?_, hrest⟩
        · exact pickPrimary_const at_ ps rest (some x) (primaryScoreOf at_ ps x) hrest
        · intro e he
          cases he
    · simp only [List.foldl_cons]
      rw [if_neg (by omega)]
      have hrest : ∃ e ∈ rest, curS < primaryScoreOf at_ ps e := by
        obtain ⟨e, he, hc⟩ := hex
        rcases List.mem_cons.mp he with rfl | he
        · exact absurd hc hx
        · exact ⟨e, he, hc⟩
      obtain ⟨pre, best, post, heq, hfold, hlt, hpre, hpost⟩ := ih cur curS hrest
      refine ⟨x :: pre, best, post, by rw [heq, List.cons_append], hfold, hlt, ?_, hpost⟩
      intro e he
      rcases List.mem_cons.mp he with rfl | he
      · omega
      · exact hpre e he

/-- Claim C7 (confirmed): without manual priorities, each catalog entry
is scored `2 * pattern occurrences in the lowercased title+description
+ key skills occurring among the primary skills`; if some entry scores
positively, the first entry attaining the strictly highest score
becomes priority 1 (ties resolved by catalog order). -/
theorem C7_primary_detection (catalog : List RolePattern) (jd_data : JdData)
    (h : ∃ e ∈ catalog, 0 < primaryScoreOf (detectorText jd_data) jd_data.primary_skills e) :
    ∃ pre best post, catalog = pre ++ best :: post
      ∧ (∀ e ∈ pre, primaryScoreOf (detectorText jd_data) jd_data.primary_skills e
            < primaryScoreOf (detectorText jd_data) jd_data.primary_skills best)
      ∧ (∀ e ∈ post, primaryScoreOf (detectorText jd_data) jd_data.primary_skills e
            ≤ primaryScoreOf (detectorText jd_data) jd_data.primary_skills best)
      ∧ (_extract_job_priorities catalog jd_data []).head?
          = some ⟨best.role, 1, best.key_skills, best.weight⟩ := by
  obtain ⟨pre, best, post, heq, hfold, hpos, hpre, hpost⟩ :=
    pickPrimary_first_max (detectorText jd_data) jd_data.primary_skills catalog none 0 h
  refine ⟨pre, best, post, heq, hpre, hpost, ?_⟩
  have hpick : pickPrimary (detectorText jd_data) jd_data.primary_skills catalog
      = (some best, primaryScoreOf (detectorText jd_data) jd_data.primary_skills best) := hfold
  unfold _extract_job_priorities
  rw [if_neg (by simp)]
  unfold _auto_detect_job_priorities
  dsimp only
  rw [hpick]
  dsimp only
  rw [if_pos hpos]
  split
  · split
    · next hcond => exact absurd hcond.1 (by simp)
    · split
      · next hemp => simp at hemp
      · simp
  · next hlen => exact absurd (by simp) hlen

theorem C7_primary_detection_witness :
    (∃ e ∈ roleCatalogPart0,
      0 < primaryScoreOf
        (detectorText ⟨"Python Developer".data, "build APIs".data, [],
          3, ["python".data, "django".data], []⟩)
        ["python".data, "django".data] e)
    ∧ ∃ pre best post, roleCatalogPart0 = pre ++ best :: post
      ∧ (∀ e ∈ pre, primaryScoreOf
            (detectorText ⟨"Python Developer".data, "build APIs".data, [],
              3, ["python".data, "django".data], []⟩)
            ["python".data, "django".data] e
          < primaryScoreOf
            (detectorText ⟨"Python Developer".data, "build APIs".data, [],
              3, ["python".data, "django".data], []⟩)
            ["python".data, "django".data] best)
      ∧ (∀ e ∈ post, primaryScoreOf
            (detectorText ⟨"Python Developer".data, "build APIs".data, [],
              3, ["python".data, "django".data], []⟩)
            ["python".data, "django".data] e
          ≤ primaryScoreOf
            (detectorText ⟨"Python Developer".data, "build APIs".data, [],
              3, ["python".data, "django".data], []⟩)
            ["python".data, "django".data] best)
      ∧ (_extract_job_priorities roleCatalogPart0
            ⟨"Python Developer".data, "build APIs".data, [],
              3, ["python".data, "django".data], []⟩ []).head?
          = some ⟨best.role, 1, best.key_skills, best.weight⟩ :=
  ⟨by decide,
   C7_primary_detection roleCatalogPart0
     ⟨"Python Developer".data, "build APIs".data, [], 3,
      ["python".data, "django".data], []⟩ (by decide)⟩

/-! ### Claim C9: skill-score monotonicity (with the score bounds
shared by claim C2) -/

theorem dictGet_nonneg {m : WeightMap} (hw : ∀ p ∈ m, 0 ≤ p.2) (k : Str) (d : ℚ)
    (hd : 0 ≤ d) : 0 ≤ dictGet m k d := by
  unfold dictGet
  induction m with
  | nil => simpa [List.lookup]
  | cons p rest ih =>
    rw [List.lookup]
    cases hk : k == p.1 with
    | true => exact hw p (List.mem_cons_self p rest)
    | false => exact ih (fun q hq => hw q (List.mem_cons_of_mem p hq))

theorem priorityMultiplier_nonneg (n : ℕ) : 0 ≤ priorityMultiplier n := by
  unfold priorityMultiplier
  split_ifs <;> norm_num

theorem finalWeight_nonneg {w : WeightMap} (hw : ∀ p ∈ w, 0 ≤ p.2) (sk : Str × ℕ) :
    0 ≤ finalWeight w sk := by
  unfold finalWeight
  have h1 := dictGet_nonneg hw sk.1 50 (by norm_num)
  have h2 := priorityMultiplier_nonneg sk.2
  positivity

theorem sum_map_nonneg {α : Type} (l : List α) (f : α → ℚ) (hf : ∀ x ∈ l, 0 ≤ f x) :
    0 ≤ (l.map f).sum := by
  induction l with
  | nil => simp
  | cons x rest ih =>
    rw [List.map_cons, List.sum_cons]
    have := hf x (List.mem_cons_self x rest)
    have := ih (fun y hy => hf y (List.mem_cons_of_mem x hy))
    linarith

theorem sum_map_filter_mono {α : Type} (l : List α) (p q : α → Bool) (f : α → ℚ)
    (hpq : ∀ x ∈ l, p x = true → q x = true) (hf : ∀ x ∈ l, 0 ≤ f x) :
    ((l.filter p).map f).sum ≤ ((l.filter q).map f).sum := by
  induction l with
  | nil => simp
  | cons x rest ih =>
    have ih' := ih (fun y hy h => hpq y (List.mem_cons_of_mem x hy) h)
      (fun y hy => hf y (List.mem_cons_of_mem x hy))
    have hfx := hf x (List.mem_cons_self x rest)
    cases hp : p x with
    | true =>
      have hq := hpq x (List.mem_cons_self x rest) hp
      rw [List.filter_cons_of_pos hp, List.filter_cons_of_pos hq,
        List.map_cons, List.map_cons, List.sum_cons, List.sum_cons]
      linarith
    | false =>
      rw [List.filter_cons_of_neg (by simp [hp])]
      cases hq : q x with
      | true =>
        rw [List.filter_cons_of_pos hq, List.map_cons, List.sum_cons]
        linarith
      | false =>
        rw [List.filter_cons_of_neg (by simp [hq])]
        exact ih'

theorem sum_map_filter_le_sum_map {α : Type} (l : List α) (p : α → Bool) (f : α → ℚ)
    (hf : ∀ x ∈ l, 0 ≤ f x) :
    ((l.filter p).map f).sum ≤ (l.map f).sum := by
  have h := sum_map_filter_mono l p (fun _ => true) f (fun x _ _ => rfl) hf
  simpa using h

theorem coverageBonus_nonneg (a : ℚ) : 0 ≤ coverageBonus a := by
  unfold coverageBonus
  split_ifs <;> norm_num

theorem coverageBonus_mono {a b : ℚ} (h : a ≤ b) : coverageBonus a ≤ coverageBonus b := by
  unfold coverageBonus
  split_ifs <;> linarith

theorem priority1Bonus_nonneg (a : ℚ) : 0 ≤ priority1Bonus a := by
  unfold priority1Bonus
  split_ifs <;> norm_num

theorem priority1Bonus_mono {a b : ℚ} (h : a ≤ b) (hb : b ≤ 1) :
    priority1Bonus a ≤ priority1Bonus b := by
  unfold priority1Bonus
  by_cases ha1 : a = 1
  · have hb1 : b = 1 := le_antisymm hb (ha1 ▸ h)
    rw [if_pos ha1, if_pos hb1]
  · rw [if_neg ha1]
    by_cases hb1 : b = 1
    · rw [if_pos hb1]
      split_ifs <;> norm_num
    · rw [if_neg hb1]
      by_cases ha8 : (8:ℚ)/10 ≤ a
      · rw [if_pos ha8, if_pos (ha8.trans h)]
      · rw [if_neg ha8]
        split_ifs <;> norm_num

/-- The skills score is clamped above by the `min(100, ...)`. -/
theorem skills_score_le_100 (eng : Engine) (resume_skills : List Str)
    (job_priorities : List JobPriority) (w : WeightMap) :
    _calculate_complete_skills_score eng resume_skills job_priorities w ≤ 100 := by
  unfold _calculate_complete_skills_score
  split_ifs with h1 h2
  · norm_num
  · norm_num
  · exact minQ_le_left 100 _

theorem skillsBaseScore_nonneg (eng : Engine) (resume_skills : List Str)
    (job_priorities : List JobPriority) {w : WeightMap} (hw : ∀ p ∈ w, 0 ≤ p.2) :
    0 ≤ skillsBaseScore eng resume_skills job_priorities w := by
  unfold skillsBaseScore
  dsimp only
  split_ifs with hz
  · norm_num
  · have hnum := sum_map_nonneg (matchedSkillsOf eng resume_skills job_priorities)
      (finalWeight w) (fun x _ => finalWeight_nonneg hw x)
    have hden := sum_map_nonneg (requiredSkillsOf job_priorities)
      (finalWeight w) (fun x _ => finalWeight_nonneg hw x)
    positivity

theorem priorityBonusOf_nonneg (eng : Engine) (resume_skills : List Str)
    (job_priorities : List JobPriority) :
    0 ≤ priorityBonusOf eng resume_skills job_priorities := by
  unfold priorityBonusOf
  dsimp only
  split_ifs
  · exact priority1Bonus_nonneg _
  · norm_num

/-- With nonnegative configured weights the skills score is
nonnegative on every branch. -/
theorem skills_score_nonneg (eng : Engine) (resume_skills : List Str)
    (job_priorities : List JobPriority) {w : WeightMap} (hw : ∀ p ∈ w, 0 ≤ p.2) :
    0 ≤ _calculate_complete_skills_score eng resume_skills job_priorities w := by
  unfold _calculate_complete_skills_score
  split_ifs with h1 h2
  · norm_num
  · norm_num
  · apply minQ_nonneg (by norm_num)
    have hb := skillsBaseScore_nonneg eng resume_skills job_priorities hw
    have hc := coverageBonus_nonneg (coverageRatioOf eng resume_skills job_priorities)
    have hp := priorityBonusOf_nonneg eng resume_skills job_priorities
    linarith

/-- Appending one skill never turns a matched required skill into a
missing one. -/
theorem has_skill_append (eng : Engine) (target : Str) (l : List Str) (s : Str)
    (h : _enhanced_candidate_has_skill eng target l = true) :
    _enhanced_candidate_has_skill eng target (l ++ [s]) = true := by
  unfold _enhanced_candidate_has_skill at h ⊢
  rw [List.any_append]
  simp only [h, Bool.true_or]

theorem matchedSkillsOf_append_imp (eng : Engine) (resume_skills : List Str) (s : Str)
    (job_priorities : List JobPriority) :
    ∀ x ∈ requiredSkillsOf job_priorities,
      _enhanced_candidate_has_skill eng x.1 resume_skills = true →
      _enhanced_candidate_has_skill eng x.1 (resume_skills ++ [s]) = true :=
  fun x _ hx => has_skill_append eng x.1 resume_skills s hx

theorem skillsBaseScore_append (eng : Engine) (resume_skills : List Str) (s : Str)
    (job_priorities : List JobPriority) {w : WeightMap} (hw : ∀ p ∈ w, 0 ≤ p.2) :
    skillsBaseScore eng resume_skills job_priorities w ≤
      skillsBaseScore eng (resume_skills ++ [s]) job_priorities w := by
  unfold skillsBaseScore matchedSkillsOf
  dsimp only
  split_ifs with hz
  · exact le_refl _
  · have hfpos : ∀ x ∈ requiredSkillsOf job_priorities, 0 ≤ finalWeight w x :=
      fun x _ => finalWeight_nonneg hw x
    have hsum := sum_map_filter_mono (requiredSkillsOf job_priorities)
      (fun sk => _enhanced_candidate_has_skill eng sk.1 resume_skills)
      (fun sk => _enhanced_candidate_has_skill eng sk.1 (resume_skills ++ [s]))
      (finalWeight w)
      (matchedSkillsOf_append_imp eng resume_skills s job_priorities) hfpos
    have hden := sum_map_nonneg (requiredSkillsOf job_priorities) (finalWeight w) hfpos
    have hdpos : 0 < ((requiredSkillsOf job_priorities).map (finalWeight w)).sum :=
      lt_of_le_of_ne hden (Ne.symm hz)
    exact mul_le_mul_of_nonneg_right (div_le_div_of_nonneg_right hsum hdpos.le) (by norm_num)

theorem coverageRatioOf_append (eng : Engine) (resume_skills : List Str) (s : Str)
    (job_priorities : List JobPriority) :
    coverageRatioOf eng resume_skills job_priorities ≤
      coverageRatioOf eng (resume_skills ++ [s]) job_priorities := by
  unfold coverageRatioOf matchedSkillsOf
  have hlen : ((requiredSkillsOf job_priorities).filter
        (fun sk => _enhanced_candidate_has_skill eng sk.1 resume_skills)).length ≤
      ((requiredSkillsOf job_priorities).filter
        (fun sk => _enhanced_candidate_has_skill eng sk.1 (resume_skills ++ [s]))).length := by
    rw [← List.countP_eq_length_filter, ← List.countP_eq_length_filter]
    exact List.countP_mono_left (matchedSkillsOf_append_imp eng resume_skills s job_priorities)
  rcases Nat.eq_zero_or_pos (requiredSkillsOf job_priorities).length with hr | hr
  · rw [hr]
    norm_num
  · have hrq : (0:ℚ) < ((requiredSkillsOf job_priorities).length : ℚ) := by exact_mod_cast hr
    exact div_le_div_of_nonneg_right (by exact_mod_cast hlen) hrq.le

theorem coverageRatioOf_le_one (eng : Engine) (resume_skills : List Str)
    (job_priorities : List JobPriority)
    (h : (requiredSkillsOf job_priorities).length ≠ 0) :
    coverageRatioOf eng resume_skills job_priorities ≤ 1 := by
  unfold coverageRatioOf matchedSkillsOf
  have hrq : (0:ℚ) < ((requiredSkillsOf job_priorities).length : ℚ) := by
    have := Nat.pos_of_ne_zero h
    exact_mod_cast this
  rw [div_le_one hrq]
  exact_mod_cast List.length_filter_le _ _

theorem priorityBonusOf_append (eng : Engine) (resume_skills : List Str) (s : Str)
    (job_priorities : List JobPriority) :
    priorityBonusOf eng resume_skills job_priorities ≤
      priorityBonusOf eng (resume_skills ++ [s]) job_priorities := by
  unfold priorityBonusOf matchedSkillsOf
  dsimp only
  split_ifs with h1
  · have hcomb : ∀ rs : List Str,
        ((requiredSkillsOf job_priorities).filter
            (fun sk => _enhanced_candidate_has_skill eng sk.1 rs)).filter
          (fun sk => sk.2 = 1)
        = (requiredSkillsOf job_priorities).filter
            (fun sk => decide (sk.2 = 1) && _enhanced_candidate_has_skill eng sk.1 rs) :=
      fun rs => List.filter_filter _ _
    have hp1 : (0:ℚ) < (((requiredSkillsOf job_priorities).filter
        (fun sk => sk.2 = 1)).length : ℚ) := by exact_mod_cast h1
    have hlen : (((requiredSkillsOf job_priorities).filter
          (fun sk => _enhanced_candidate_has_skill eng sk.1 resume_skills)).filter
            (fun sk => sk.2 = 1)).length ≤
        (((requiredSkillsOf job_priorities).filter
          (fun sk => _enhanced_candidate_has_skill eng sk.1 (resume_skills ++ [s]))).filter
            (fun sk => sk.2 = 1)).length := by
      rw [hcomb, hcomb, ← List.countP_eq_length_filter, ← List.countP_eq_length_filter]
      refine List.countP_mono_left (fun x hx hpx => ?_)
      rw [Bool.and_eq_true] at hpx ⊢
      exact ⟨hpx.1, has_skill_append eng x.1 resume_skills s hpx.2⟩
    have hsub : (((requiredSkillsOf job_priorities).filter
          (fun sk => _enhanced_candidate_has_skill eng sk.1 (resume_skills ++ [s]))).filter
            (fun sk => sk.2 = 1)).length ≤
        ((requiredSkillsOf job_priorities).filter (fun sk => sk.2 = 1)).length := by
      rw [hcomb, ← List.countP_eq_length_filter, ← List.countP_eq_length_filter]
      refine List.countP_mono_left (fun x hx hpx => ?_)
      rw [Bool.and_eq_true] at hpx
      exact hpx.1
    refine priority1Bonus_mono ?_ ?_
    · exact div_le_div_of_nonneg_right (by exact_mod_cast hlen) hp1.le
    · rw [div_le_one hp1]
      exact_mod_cast hsub
  · exact le_refl _

/-- Claim C9 (confirmed): with a weight map whose configured weights
are nonnegative (the data model allows 0..100), appending one skill
string to the resume skill list never decreases the skills score. -/
theorem C9_skill_monotonicity (eng : Engine) (resume_skills : List Str) (s : Str)
    (job_priorities : List JobPriority) {w : WeightMap} (hw : ∀ p ∈ w, 0 ≤ p.2) :
    _calculate_complete_skills_score eng resume_skills job_priorities w ≤
      _calculate_complete_skills_score eng (resume_skills ++ [s]) job_priorities w := by
  by_cases hempty : resume_skills = []
  · rw [hempty]
    have h0 : _calculate_complete_skills_score eng [] job_priorities w = 0 := by
      unfold _calculate_complete_skills_score
      rw [if_pos rfl]
    rw [h0]
    exact skills_score_nonneg eng ([] ++ [s]) job_priorities hw
  · have hne : resume_skills ++ [s] ≠ [] := by simp
    unfold _calculate_complete_skills_score
    rw [if_neg hempty, if_neg hne]
    by_cases hreq : (requiredSkillsOf job_priorities).length = 0
    · rw [if_pos hreq, if_pos hreq]
    · rw [if_neg hreq, if_neg hreq]
      have hb := skillsBaseScore_append eng resume_skills s job_priorities hw
      have hc := coverageBonus_mono (coverageRatioOf_append eng resume_skills s job_priorities)
      have hp := priorityBonusOf_append eng resume_skills s job_priorities
      rw [minQ_eq_min, minQ_eq_min]
      exact min_le_min (le_refl 100) (by linarith)

theorem C9_skill_monotonicity_witness :
    (∀ p ∈ ([("python".data, (100:ℚ))] : WeightMap), 0 ≤ p.2)
    ∧ _calculate_complete_skills_score ⟨[], none, 2026⟩ ["django".data]
        [⟨"Python Developer".data, 1, ["python".data, "django".data], 1⟩]
        [("python".data, 100)]
      ≤ _calculate_complete_skills_score ⟨[], none, 2026⟩ (["django".data] ++ ["python".data])
        [⟨"Python Developer".data, 1, ["python".data, "django".data], 1⟩]
        [("python".data, 100)] :=
  ⟨by intro p hp; rcases List.mem_singleton.mp hp with rfl; norm_num,
   C9_skill_monotonicity ⟨[], none, 2026⟩ ["django".data] "python".data
     [⟨"Python Developer".data, 1, ["python".data, "django".data], 1⟩]
     (by intro p hp; rcases List.mem_singleton.mp hp with rfl; norm_num)⟩

/-! ### Claim C1: the strict relevance gate -/

theorem relevantStep_not_relevant {cy : ℕ} {kw ps : List Str} {e : Engagement}
    (h : engagementRelevantB kw ps e = false) (acc : ℚ × RelevanceDetails) :
    relevantStep cy kw ps acc e =
      (acc.1, ⟨acc.2.matching_jobs,
        acc.2.non_matching_jobs ++ [⟨e.role, e.company, e.duration⟩]⟩) := by
  unfold engagementRelevantB at h
  unfold relevantStep
  dsimp only
  rw [if_neg]
  intro hcond
  have h1 := hcond.1
  rw [Bool.or_eq_false_iff] at h
  simp only [Bool.or_eq_true, decide_eq_true_eq] at h1
  simp only [decide_eq_false_iff_not] at h
  tauto

theorem relevant_fold_none (cy : ℕ) (kw ps : List Str) :
    ∀ (tl : List Engagement) (y : ℚ) (mj : List MatchingJob) (nm : List CandidateExp),
      (∀ e ∈ tl, engagementRelevantB kw ps e = false) →
      tl.foldl (relevantStep cy kw ps) (y, ⟨mj, nm⟩) =
        (y, ⟨mj, nm ++ tl.map (fun e => ⟨e.role, e.company, e.duration⟩)⟩) := by
  intro tl
  induction tl with
  | nil => intro y mj nm _; simp
  | cons e rest ih =>
    intro y mj nm h
    rw [List.foldl_cons,
      relevantStep_not_relevant (h e (List.mem_cons_self e rest)) (y, ⟨mj, nm⟩)]
    dsimp only
    have hih := ih y mj (nm ++ [⟨e.role, e.company, e.duration⟩])
      (fun x hx => h x (List.mem_cons_of_mem e hx))
    rw [hih]
    simp

theorem relevant_experience_of_none (cy : ℕ) (tl : List Engagement)
    (prios : List JobPriority)
    (h : ∀ e ∈ tl, engagementRelevantB (requiredRoleKeywords prios)
        (prioritySkillsSet prios) e = false) :
    _calculate_relevant_experience cy tl prios =
      (0, ⟨[], tl.map (fun e => ⟨e.role, e.company, e.duration⟩)⟩) := by
  unfold _calculate_relevant_experience
  by_cases he : tl.isEmpty
  · rw [if_pos he]
    rw [List.isEmpty_iff.mp he]
    rfl
  · rw [if_neg he]
    have := relevant_fold_none cy (requiredRoleKeywords prios) (prioritySkillsSet prios)
      tl 0 [] [] h
    simpa using this

/-- Claim C1 (confirmed): when no engagement of the enriched timeline
is relevant (no non-generic role-keyword hit and fewer than two
priority skills among its technologies) — in particular when the
timeline is empty — `calculate_ats_score` returns the rejection record
with all scores 0, the rejection reason, the required role names and
the candidate's engagement list.  The record does not depend on the
weight map, so the theorem holds for every `skills_weightage`: the
Skills Scorer and Experience Scorer do not contribute. -/
theorem C1_relevance_gate (eng : Engine) (jd_data : JdData) (resume_data : ResumeData)
    (skills_weightage : WeightMap) (manual_priorities : List JobPriority)
    (h : ∀ e ∈ _enhance_experience_data resume_data
        (_extract_job_priorities eng.catalog jd_data manual_priorities),
      engagementRelevantB
        (requiredRoleKeywords (_extract_job_priorities eng.catalog jd_data manual_priorities))
        (prioritySkillsSet (_extract_job_priorities eng.catalog jd_data manual_priorities))
        e = false) :
    calculate_ats_score eng (some jd_data) (some resume_data) skills_weightage
        manual_priorities =
      { overall_score := 0, skill_match_score := 0, experience_score := 0,
        qualification_score := 0,
        rejection_reason := some "No relevant job role experience".data,
        required_roles :=
          (_extract_job_priorities eng.catalog jd_data manual_priorities).map (·.role),
        candidate_experience :=
          (_enhance_experience_data resume_data
            (_extract_job_priorities eng.catalog jd_data manual_priorities)).map
              (fun e => ⟨e.role, e.company, e.duration⟩),
        error := none } := by
  have hrel := relevant_experience_of_none eng.currentYear
    (_enhance_experience_data resume_data
      (_extract_job_priorities eng.catalog jd_data manual_priorities))
    (_extract_job_priorities eng.catalog jd_data manual_priorities) h
  unfold calculate_ats_score
  dsimp only
  rw [hrel]
  dsimp only
  rw [if_pos (Or.inl rfl)]

theorem C1_relevance_gate_witness :
    (∀ e ∈ _enhance_experience_data
        ⟨["java".data, "spring".data], [], 5,
         [⟨"Java Developer".data, "X Corp".data, "2018 - 2023".data,
           ["java".data, "spring".data], [], []⟩]⟩
        (_extract_job_priorities [] ⟨"Python Developer".data, [], [], 3, [], []⟩
          [⟨"Python Developer".data, 1, ["python".data, "django".data], 1⟩]),
      engagementRelevantB
        (requiredRoleKeywords (_extract_job_priorities []
          ⟨"Python Developer".data, [], [], 3, [], []⟩
          [⟨"Python Developer".data, 1, ["python".data, "django".data], 1⟩]))
        (prioritySkillsSet (_extract_job_priorities []
          ⟨"Python Developer".data, [], [], 3, [], []⟩
          [⟨"Python Developer".data, 1, ["python".data, "django".data], 1⟩]))
        e = false)
    ∧ calculate_ats_score ⟨[], none, 2026⟩
        (some ⟨"Python Developer".data, [], [], 3, [], []⟩)
        (some ⟨["java".data, "spring".data], [], 5,
          [⟨"Java Developer".data, "X Corp".data, "2018 - 2023".data,
            ["java".data, "spring".data], [], []⟩]⟩)
        [] [⟨"Python Developer".data, 1, ["python".data, "django".data], 1⟩] =
      { overall_score := 0, skill_match_score := 0, experience_score := 0,
        qualification_score := 0,
        rejection_reason := some "No relevant job role experience".data,
        required_roles :=
          (_extract_job_priorities [] ⟨"Python Developer".data, [], [], 3, [], []⟩
            [⟨"Python Developer".data, 1, ["python".data, "django".data], 1⟩]).map (·.role),
        candidate_experience :=
          (_enhance_experience_data
            ⟨["java".data, "spring".data], [], 5,
             [⟨"Java Developer".data, "X Corp".data, "2018 - 2023".data,
               ["java".data, "spring".data], [], []⟩]⟩
            (_extract_job_priorities [] ⟨"Python Developer".data, [], [], 3, [], []⟩
              [⟨"Python Developer".data, 1, ["python".data, "django".data], 1⟩])).map
                (fun e => ⟨e.role, e.company, e.duration⟩),
        error := none } :=
  ⟨by decide,
   C1_relevance_gate ⟨[], none, 2026⟩ ⟨"Python Developer".data, [], [], 3, [], []⟩
     ⟨["java".data, "spring".data], [], 5,
      [⟨"Java Developer".data, "X Corp".data, "2018 - 2023".data,
        ["java".data, "spring".data], [], []⟩]⟩
     [] [⟨"Python Developer".data, 1, ["python".data, "django".data], 1⟩]
     (by decide)⟩

/-! ### Claim C2: all score fields stay in [0, 100] -/

theorem round2_nonneg {x : ℚ} (h : 0 ≤ x) : 0 ≤ round2 x := by
  unfold round2
  have hr : (0:ℤ) ≤ round (x * 100) := by
    rw [round_eq, Int.le_floor]
    push_cast
    linarith
  have : (0:ℚ) ≤ (round (x * 100) : ℚ) := by exact_mod_cast hr
  linarith [this]

theorem round2_le_100 {x : ℚ} (h : x ≤ 100) : round2 x ≤ 100 := by
  unfold round2
  have hr : round (x * 100) ≤ (10000:ℤ) := by
    rw [round_eq, Int.floor_le_iff]
    push_cast
    linarith
  have : (round (x * 100) : ℚ) ≤ 10000 := by exact_mod_cast hr
  linarith

theorem v2_score_bounds (currentYear : ℕ) (resume_data : ResumeData)
    (job_priorities : List JobPriority) (jd_experience_required relevant : ℚ)
    (details : RelevanceDetails) :
    0 ≤ _calculate_enhanced_experience_score_v2 currentYear resume_data job_priorities
        jd_experience_required relevant details
    ∧ _calculate_enhanced_experience_score_v2 currentYear resume_data job_priorities
        jd_experience_required relevant details ≤ 100 := by
  unfold _calculate_enhanced_experience_score_v2
  split_ifs
  · norm_num
  · dsimp only
    constructor
    · exact minQ_nonneg (by norm_num) (maxQ_nonneg (le_refl 0))
    · exact minQ_le_left 100 _

set_option maxHeartbeats 1600000 in
/-- Claim C2 (confirmed): with a valid weight map (nonnegative
configured weights), every score field of the result lies in [0, 100]
on every path: missing input, relevance rejection, and the scoring
path with its fresh-graduate branch. -/
theorem C2_score_bounds (eng : Engine) (jd_data : Option JdData)
    (resume_data : Option ResumeData) {skills_weightage : WeightMap}
    (manual_priorities : List JobPriority)
    (hw : ∀ p ∈ skills_weightage, 0 ≤ p.2) :
    (0 ≤ (calculate_ats_score eng jd_data resume_data skills_weightage
        manual_priorities).overall_score
      ∧ (calculate_ats_score eng jd_data resume_data skills_weightage
          manual_priorities).overall_score ≤ 100)
    ∧ (0 ≤ (calculate_ats_score eng jd_data resume_data skills_weightage
        manual_priorities).skill_match_score
      ∧ (calculate_ats_score eng jd_data resume_data skills_weightage
          manual_priorities).skill_match_score ≤ 100)
    ∧ (0 ≤ (calculate_ats_score eng jd_data resume_data skills_weightage
        manual_priorities).experience_score
      ∧ (calculate_ats_score eng jd_data resume_data skills_weightage
          manual_priorities).experience_score ≤ 100) := by
  rcases jd_data with _ | jd
  · unfold calculate_ats_score _get_default_score
    norm_num
  rcases resume_data with _ | resume
  · unfold calculate_ats_score _get_default_score
    norm_num
  unfold calculate_ats_score
  dsimp only
  split_ifs with hgate
  · norm_num
  all_goals
    exact ⟨⟨round2_nonneg (minQ_nonneg (by norm_num) (maxQ_nonneg (le_refl 0))),
           round2_le_100 (minQ_le_left 100 _)⟩,
          ⟨round2_nonneg (skills_score_nonneg eng _ _ hw),
           round2_le_100 (skills_score_le_100 eng _ _ _)⟩,
          ⟨round2_nonneg (v2_score_bounds eng.currentYear _ _ _ _ _).1,
           round2_le_100 (v2_score_bounds eng.currentYear _ _ _ _ _).2⟩⟩

theorem C2_score_bounds_witness :
    (∀ p ∈ ([("python".data, (100:ℚ))] : WeightMap), 0 ≤ p.2)
    ∧ (0 ≤ (calculate_ats_score ⟨[], none, 2026⟩
          (some ⟨"Python Developer".data, [], [], 3, [], []⟩)
          (some ⟨["python".data, "django".data], [], 4,
            [⟨"Python Developer".data, "Acme".data, "2019 - 2023".data,
              ["python".data, "django".data], [], []⟩]⟩)
          [("python".data, 100)]
          [⟨"Python Developer".data, 1, ["python".data, "django".data], 1⟩]).overall_score
      ∧ (calculate_ats_score ⟨[], none, 2026⟩
          (some ⟨"Python Developer".data, [], [], 3, [], []⟩)
          (some ⟨["python".data, "django".data], [], 4,
            [⟨"Python Developer".data, "Acme".data, "2019 - 2023".data,
              ["python".data, "django".data], [], []⟩]⟩)
          [("python".data, 100)]
          [⟨"Python Developer".data, 1, ["python".data, "django".data], 1⟩]).overall_score
        ≤ 100) :=
  ⟨by intro p hp; rcases List.mem_singleton.mp hp with rfl; norm_num,
   (C2_score_bounds ⟨[], none, 2026⟩
      (some ⟨"Python Developer".data, [], [], 3, [], []⟩)
      (some ⟨["python".data, "django".data], [], 4,
        [⟨"Python Developer".data, "Acme".data, "2019 - 2023".data,
          ["python".data, "django".data], [], []⟩]⟩)
      [⟨"Python Developer".data, 1, ["python".data, "django".data], 1⟩]
      (by intro p hp; rcases List.mem_singleton.mp hp with rfl; norm_num)).1⟩

/-! ### Claim C3: the fresh-graduate branch -/

theorem maxQ_zero_idem (x : ℚ) : maxQ 0 (maxQ 0 x) = maxQ 0 x := by
  rw [maxQ_eq_max, maxQ_eq_max, ← max_assoc, max_self]

theorem minQ_100_of_le {x : ℚ} (h : x ≤ 100) : minQ 100 x = x := by
  rw [minQ_eq_min]; exact min_eq_right h

/-- Claim C3 (corrected): the fresh-graduate formula holds only for a
candidate that passes the relevance gate (which runs first): with
nonnegative configured weights and `total_experience = 0`, scoring is
not rejected, and the overall score is
`round2 (max 0 (skill_score - min 30 (required * 10)))` when
`required > 0` and exactly the skill-match score when `required = 0`.
A fresh graduate with an empty timeline never reaches this branch: the
gate rejects first (see the counterexample). -/
theorem C3_fresh_graduate (eng : Engine) (jd : JdData) (resume : ResumeData)
    {skills_weightage : WeightMap} (manual_priorities : List JobPriority)
    (hw : ∀ p ∈ skills_weightage, 0 ≤ p.2)
    (hfresh : resume.total_experience = 0)
    (hgate : ¬((_calculate_relevant_experience eng.currentYear
        (_enhance_experience_data resume
          (_extract_job_priorities eng.catalog jd manual_priorities))
        (_extract_job_priorities eng.catalog jd manual_priorities)).1 = 0
      ∨ (_calculate_relevant_experience eng.currentYear
        (_enhance_experience_data resume
          (_extract_job_priorities eng.catalog jd manual_priorities))
        (_extract_job_priorities eng.catalog jd manual_priorities)).2.matching_jobs.length
          = 0)) :
    (calculate_ats_score eng (some jd) (some resume) skills_weightage
        manual_priorities).rejection_reason = none
    ∧ (0 < _extract_experience_requirement jd →
        (calculate_ats_score eng (some jd) (some resume) skills_weightage
            manual_priorities).overall_score
          = round2 (maxQ 0
              (_calculate_complete_skills_score eng (_extract_resume_skills resume)
                  (_extract_job_priorities eng.catalog jd manual_priorities)
                  skills_weightage
                - minQ 30 (_extract_experience_requirement jd * 10))))
    ∧ (_extract_experience_requirement jd = 0 →
        (calculate_ats_score eng (some jd) (some resume) skills_weightage
            manual_priorities).overall_score
          = (calculate_ats_score eng (some jd) (some resume) skills_weightage
              manual_priorities).skill_match_score) := by
  have hskills_nn := skills_score_nonneg eng (_extract_resume_skills resume)
    (_extract_job_priorities eng.catalog jd manual_priorities) hw
  have hskills_le := skills_score_le_100 eng (_extract_resume_skills resume)
    (_extract_job_priorities eng.catalog jd manual_priorities) skills_weightage
  unfold calculate_ats_score
  dsimp only
  rw [if_neg hgate]
  dsimp only
  refine ⟨rfl, ?_, ?_⟩
  · intro hpos
    have hfg : resume.total_experience = 0
        ∨ (_enhance_experience_data resume
            (_extract_job_priorities eng.catalog jd manual_priorities)).isEmpty = true :=
      Or.inl hfresh
    rw [if_pos hfg, if_pos hpos]
    have hpen : 0 ≤ minQ 30 (_extract_experience_requirement jd * 10) :=
      minQ_nonneg (by norm_num) (by nlinarith)
    have hb : maxQ 0
        (_calculate_complete_skills_score eng (_extract_resume_skills resume)
            (_extract_job_priorities eng.catalog jd manual_priorities) skills_weightage
          - minQ 30 (_extract_experience_requirement jd * 10)) ≤ 100 := by
      rw [maxQ_eq_max]
      exact max_le (by norm_num) (by linarith)
    rw [maxQ_zero_idem, minQ_100_of_le hb]
  · intro h0
    have hfg : resume.total_experience = 0
        ∨ (_enhance_experience_data resume
            (_extract_job_priorities eng.catalog jd manual_priorities)).isEmpty = true :=
      Or.inl hfresh
    have hnot : ¬ 0 < _extract_experience_requirement jd := by rw [h0]; norm_num
    rw [if_pos hfg, if_neg hnot, maxQ_eq_max, max_eq_right hskills_nn,
      minQ_100_of_le hskills_le]

/-- Claim C3 counterexample: a fresh graduate with an empty timeline,
`required_experience_years = 0`, and full coverage of the priority
skills is not scored `overall_score = skill_score`: the relevance gate
runs before the fresh-graduate branch and rejects the empty timeline
with overall score 0, even though the skills scorer would give a
positive score. -/
theorem C3_empty_timeline_rejected_counterexample :
    (calculate_ats_score ⟨[], none, 2026⟩
        (some ⟨"Python Developer".data, [], [], 0, [], []⟩)
        (some ⟨["python".data, "django".data], [], 0, []⟩)
        [("python".data, 100), ("django".data, 100)]
        [⟨"Python Developer".data, 1, ["python".data, "django".data], 1⟩]).rejection_reason
      = some "No relevant job role experience".data
    ∧ (calculate_ats_score ⟨[], none, 2026⟩
        (some ⟨"Python Developer".data, [], [], 0, [], []⟩)
        (some ⟨["python".data, "django".data], [], 0, []⟩)
        [("python".data, 100), ("django".data, 100)]
        [⟨"Python Developer".data, 1, ["python".data, "django".data], 1⟩]).overall_score
      = 0
    ∧ 0 < _calculate_complete_skills_score ⟨[], none, 2026⟩
        (_extract_resume_skills ⟨["python".data, "django".data], [], 0, []⟩)
        [⟨"Python Developer".data, 1, ["python".data, "django".data], 1⟩]
        [("python".data, 100), ("django".data, 100)] := by
  decide

theorem C3_fresh_graduate_witness :
    (calculate_ats_score ⟨[], none, 2026⟩
        (some ⟨"Python Developer".data, [], [], 0, [], []⟩)
        (some ⟨["python".data], [], 0,
          [⟨"Python Developer".data, "Acme".data, "2019 - 2023".data,
            ["python".data], [], []⟩]⟩)
        [("python".data, 100)]
        [⟨"Python Developer".data, 1, ["python".data], 1⟩]).rejection_reason = none
    ∧ (calculate_ats_score ⟨[], none, 2026⟩
        (some ⟨"Python Developer".data, [], [], 0, [], []⟩)
        (some ⟨["python".data], [], 0,
          [⟨"Python Developer".data, "Acme".data, "2019 - 2023".data,
            ["python".data], [], []⟩]⟩)
        [("python".data, 100)]
        [⟨"Python Developer".data, 1, ["python".data], 1⟩]).overall_score
      = (calculate_ats_score ⟨[], none, 2026⟩
        (some ⟨"Python Developer".data, [], [], 0, [], []⟩)
        (some ⟨["python".data], [], 0,
          [⟨"Python Developer".data, "Acme".data, "2019 - 2023".data,
            ["python".data], [], []⟩]⟩)
        [("python".data, 100)]
        [⟨"Python Developer".data, 1, ["python".data], 1⟩]).skill_match_score := by
  have hw : ∀ p ∈ ([("python".data, (100:ℚ))] : WeightMap), 0 ≤ p.2 := by
    intro p hp; rcases List.mem_singleton.mp hp with rfl; norm_num
  have h := C3_fresh_graduate ⟨[], none, 2026⟩
    ⟨"Python Developer".data, [], [], 0, [], []⟩
    ⟨["python".data], [], 0,
      [⟨"Python Developer".data, "Acme".data, "2019 - 2023".data,
        ["python".data], [], []⟩]⟩
    [⟨"Python Developer".data, 1, ["python".data], 1⟩]
    hw rfl (by decide)
  exact ⟨h.1, h.2.2 (by decide)⟩

/-! ### Claim C4: the experience-score combination weights -/

/-- Claim C4 (corrected): for every candidate that passes the relevance
gate, the experience score is computed by
`_calculate_enhanced_experience_score_v2` with weights 0.5 / 0.3 / 0.2
(requirement / quality / recency), not 0.4 / 0.4 / 0.2: the field
equals `round2 (min 100 (max 0 (0.5*requirement + 0.3*quality +
0.2*recency)))` over the pipeline's enriched timeline and detected
priorities. -/
theorem C4_experience_weights (eng : Engine) (jd : JdData) (resume : ResumeData)
    (skills_weightage : WeightMap) (manual_priorities : List JobPriority)
    (hgate : ¬((_calculate_relevant_experience eng.currentYear
        (_enhance_experience_data resume
          (_extract_job_priorities eng.catalog jd manual_priorities))
        (_extract_job_priorities eng.catalog jd manual_priorities)).1 = 0
      ∨ (_calculate_relevant_experience eng.currentYear
        (_enhance_experience_data resume
          (_extract_job_priorities eng.catalog jd manual_priorities))
        (_extract_job_priorities eng.catalog jd manual_priorities)).2.matching_jobs.length
          = 0)) :
    (calculate_ats_score eng (some jd) (some resume) skills_weightage
        manual_priorities).experience_score
      = round2 (minQ 100 (maxQ 0
          (_calculate_experience_requirement_score
              (_calculate_relevant_experience eng.currentYear
                (_enhance_experience_data resume
                  (_extract_job_priorities eng.catalog jd manual_priorities))
                (_extract_job_priorities eng.catalog jd manual_priorities)).1
              (_extract_experience_requirement jd) * 0.5
            + _calculate_experience_quality_score
                (_calculate_relevant_experience eng.currentYear
                  (_enhance_experience_data resume
                    (_extract_job_priorities eng.catalog jd manual_priorities))
                  (_extract_job_priorities eng.catalog jd manual_priorities)).2 * 0.3
            + _calculate_recent_experience_bonus_v2 eng.currentYear
                (_enhance_experience_data resume
                  (_extract_job_priorities eng.catalog jd manual_priorities))
                (_extract_job_priorities eng.catalog jd manual_priorities) * 0.2))) := by
  unfold calculate_ats_score
  dsimp only
  rw [if_neg hgate]
  dsimp only
  unfold _calculate_enhanced_experience_score_v2
  rw [if_neg (fun h => hgate (Or.inl h))]

/-- Claim C4 counterexample: a concrete gate-passing candidate whose
engine experience score differs from the spec's 0.4 / 0.4 / 0.2
combination under both readings of its middle term (the v2 quality
sub-score, and the retired v1 scorer's relevant-experience sub-score). -/
theorem C4_experience_weights_counterexample :
    (calculate_ats_score ⟨[], none, 2026⟩
        (some ⟨"Python Developer".data, [], [], 2, [], []⟩)
        (some ⟨["python".data], [], 7,
          [⟨"Python Developer".data, "Acme".data, "2015 - 2021".data,
            ["python".data, "django".data], [], []⟩]⟩)
        []
        [⟨"Python Developer".data, 1,
          ["python".data, "django".data, "flask".data], 1⟩]).experience_score
      ≠ round2 (minQ 100 (maxQ 0
          (_calculate_experience_requirement_score
              (_calculate_relevant_experience 2026
                (_enhance_experience_data
                  ⟨["python".data], [], 7,
                    [⟨"Python Developer".data, "Acme".data, "2015 - 2021".data,
                      ["python".data, "django".data], [], []⟩]⟩
                  [⟨"Python Developer".data, 1,
                    ["python".data, "django".data, "flask".data], 1⟩])
                [⟨"Python Developer".data, 1,
                  ["python".data, "django".data, "flask".data], 1⟩]).1 2 * 0.4
            + _calculate_experience_quality_score
                (_calculate_relevant_experience 2026
                  (_enhance_experience_data
                    ⟨["python".data], [], 7,
                      [⟨"Python Developer".data, "Acme".data, "2015 - 2021".data,
                        ["python".data, "django".data], [], []⟩]⟩
                    [⟨"Python Developer".data, 1,
                      ["python".data, "django".data, "flask".data], 1⟩])
                  [⟨"Python Developer".data, 1,
                    ["python".data, "django".data, "flask".data], 1⟩]).2 * 0.4
            + _calculate_recent_experience_bonus_v2 2026
                (_enhance_experience_data
                  ⟨["python".data], [], 7,
                    [⟨"Python Developer".data, "Acme".data, "2015 - 2021".data,
                      ["python".data, "django".data], [], []⟩]⟩
                  [⟨"Python Developer".data, 1,
                    ["python".data, "django".data, "flask".data], 1⟩])
                [⟨"Python Developer".data, 1,
                  ["python".data, "django".data, "flask".data], 1⟩] * 0.2)))
    ∧ (calculate_ats_score ⟨[], none, 2026⟩
        (some ⟨"Python Developer".data, [], [], 2, [], []⟩)
        (some ⟨["python".data], [], 7,
          [⟨"Python Developer".data, "Acme".data, "2015 - 2021".data,
            ["python".data, "django".data], [], []⟩]⟩)
        []
        [⟨"Python Developer".data, 1,
          ["python".data, "django".data, "flask".data], 1⟩]).experience_score
      ≠ round2 (_calculate_enhanced_experience_score 2026
          ⟨["python".data], [], 7,
            [⟨"Python Developer".data, "Acme".data, "2015 - 2021".data,
              ["python".data, "django".data], [], []⟩]⟩
          [⟨"Python Developer".data, 1,
            ["python".data, "django".data, "flask".data], 1⟩] 2) := by
  constructor
  · decide
  · decide

theorem C4_experience_weights_witness :
    (calculate_ats_score ⟨[], none, 2026⟩
        (some ⟨"Python Developer".data, [], [], 2, [], []⟩)
        (some ⟨["python".data], [], 7,
          [⟨"Python Developer".data, "Acme".data, "2015 - 2021".data,
            ["python".data, "django".data], [], []⟩]⟩)
        []
        [⟨"Python Developer".data, 1,
          ["python".data, "django".data, "flask".data], 1⟩]).experience_score
      = round2 (minQ 100 (maxQ 0
          (_calculate_experience_requirement_score
              (_calculate_relevant_experience 2026
                (_enhance_experience_data
                  ⟨["python".data], [], 7,
                    [⟨"Python Developer".data, "Acme".data, "2015 - 2021".data,
                      ["python".data, "django".data], [], []⟩]⟩
                  [⟨"Python Developer".data, 1,
                    ["python".data, "django".data, "flask".data], 1⟩])
                [⟨"Python Developer".data, 1,
                  ["python".data, "django".data, "flask".data], 1⟩]).1 2 * 0.5
            + _calculate_experience_quality_score
                (_calculate_relevant_experience 2026
                  (_enhance_experience_data
                    ⟨["python".data], [], 7,
                      [⟨"Python Developer".data, "Acme".data, "2015 - 2021".data,
                        ["python".data, "django".data], [], []⟩]⟩
                    [⟨"Python Developer".data, 1,
                      ["python".data, "django".data, "flask".data], 1⟩])
                  [⟨"Python Developer".data, 1,
                    ["python".data, "django".data, "flask".data], 1⟩]).2 * 0.3
            + _calculate_recent_experience_bonus_v2 2026
                (_enhance_experience_data
                  ⟨["python".data], [], 7,
                    [⟨"Python Developer".data, "Acme".data, "2015 - 2021".data,
                      ["python".data, "django".data], [], []⟩]⟩
                  [⟨"Python Developer".data, 1,
                    ["python".data, "django".data, "flask".data], 1⟩])
                [⟨"Python Developer".data, 1,
                  ["python".data, "django".data, "flask".data], 1⟩] * 0.2))) :=
  C4_experience_weights ⟨[], none, 2026⟩
    ⟨"Python Developer".data, [], [], 2, [], []⟩
    ⟨["python".data], [], 7,
      [⟨"Python Developer".data, "Acme".data, "2015 - 2021".data,
        ["python".data, "django".data], [], []⟩]⟩
    []
    [⟨"Python Developer".data, 1,
      ["python".data, "django".data, "flask".data], 1⟩]
    (by decide)

end ATS
